import Mathlib

/-!
LUFA low-level USB driver: endpoint and pipe management.

A shallow embedding of `LUFA/Drivers/USB/LowLevel/Endpoint.h` and
`LUFA/Drivers/USB/LowLevel/Pipe.h`.

Conventions of the embedding:

* C unsigned integers are natural numbers; every assignment to a `uint8_t` or
  `uint16_t` object reduces modulo `2^8` or `2^16`.
* A `while` loop is a function with a fuel argument returning an `Option`:
  `none` means the fuel ran out before the loop condition became false.
* Bit positions that come from the device header `<avr/io.h>` (`EPSIZE0`,
  `EPBK0`, `ALLOC`, ...) are not part of the repository and are taken as a
  parameter, the record `IoBits`.
* Preprocessor switches (`CONTROL_ONLY_DEVICE`, the USB AVR series) are the
  record `Build`.
* Registers are state: a register holds the byte the program last wrote to it.
  The one reaction of the controller that the source documents for a store is
  part of the embedding: a store of the command bit `STALLRQC` ends the stall
  (`stallClearReaction`). What the controller does on its own (raising a
  flag, answering the host) is not; where a function returns what the
  controller reports, the report is a parameter.
* The bank behind the data register is a queue of bytes, oldest first.
* Functions that the headers only declare (`Endpoint_ConfigureEndpoint_Prv`,
  `Endpoint_WaitUntilReady`, `Pipe_WaitUntilReady`) are modelled from the
  specification; their definitions say so.
-/

namespace LUFA

/-! ## Parameters: device header and build switches -/

/-- Bit positions defined by the device header `<avr/io.h>`, which the two
driver headers include but which is not part of the repository. -/
structure IoBits where
  /-- Lowest bit of the bank size field of `UECFG1X` / `UPCFG1X`. -/
  EPSIZE0 : Nat
  /-- Lowest bit of the bank count field of `UECFG1X` / `UPCFG1X`. -/
  EPBK0 : Nat
  /-- Allocation bit of `UECFG1X` / `UPCFG1X`. -/
  ALLOC : Nat
  /-- Lowest bit of the endpoint type field of `UECFG0X`. -/
  EPTYPE0 : Nat
  /-- Direction bit of `UECFG0X`. -/
  EPDIR : Nat
  /-- Configuration status bit of `UESTA0X` / `UPSTAX`. -/
  CFGOK : Nat
  /-- Endpoint enable bit of `UECONX`. -/
  EPEN : Nat
  /-- Stall request bit of `UECONX`. -/
  STALLRQ : Nat
  /-- Stall request clear bit of `UECONX`. -/
  STALLRQC : Nat
  /-- Data toggle reset bit of `UECONX`. -/
  RSTDT : Nat
  /-- IN ready flag of `UEINTX`. -/
  TXINI : Nat
  /-- OUT received flag of `UEINTX`. -/
  RXOUTI : Nat
  /-- SETUP received flag of `UEINTX`. -/
  RXSTPI : Nat
  /-- Bank control flag of `UEINTX` / `UPINTX`. -/
  FIFOCON : Nat
  /-- Pipe enable bit of `UPCONX`. -/
  PEN : Nat
  /-- Stall received flag of `UPINTX`. -/
  RXSTALLI : Nat
  /-- Master error flag of `UPINTX`. -/
  PERRI : Nat
  /-- Lowest bit of the token field of `UPCFG0X`. -/
  PTOKEN0 : Nat
  /-- Lowest bit of the bound endpoint number field of `UPCFG0X`. -/
  PEPNUM0 : Nat

/-- The bit positions published for the USB AVR devices (AT90USBxxx,
ATmegaxxUx) by avr-libc; used to instantiate the parameter at the real
target. -/
def avrBits : IoBits where
  EPSIZE0 := 4
  EPBK0 := 2
  ALLOC := 1
  EPTYPE0 := 6
  EPDIR := 0
  CFGOK := 7
  EPEN := 0
  STALLRQ := 5
  STALLRQC := 4
  RSTDT := 3
  TXINI := 0
  RXOUTI := 2
  RXSTPI := 3
  FIFOCON := 7
  PEN := 0
  RXSTALLI := 1
  PERRI := 4
  PTOKEN0 := 4
  PEPNUM0 := 0

/-- Preprocessor switches that select between the variants of the source. -/
structure Build where
  /-- `CONTROL_ONLY_DEVICE` is defined. -/
  CONTROL_ONLY_DEVICE : Bool
  /-- One of `USB_SERIES_4_AVR`, `USB_SERIES_6_AVR`, `USB_SERIES_7_AVR` is
  defined. -/
  USB_SERIES_4_6_7 : Bool

/-! ## Size encoders -/

/-- The `while (CheckBytes < Bytes)` loop of `Endpoint_BytesToEPSizeMask`
(Endpoint.h, lines 126-130) from the loop state `(MaskVal, CheckBytes)`;
`MaskVal` is a `uint8_t`, `CheckBytes` a `uint16_t`. Returns the final
`MaskVal`. -/
def Endpoint_BytesToEPSizeMask_loop (Bytes : Nat) : Nat → Nat → Nat → Option Nat
  | 0, _, _ => none
  | fuel + 1, MaskVal, CheckBytes =>
    if CheckBytes < Bytes then
      Endpoint_BytesToEPSizeMask_loop Bytes fuel ((MaskVal + 1) % 256) ((CheckBytes <<< 1) % 65536)
    else
      some MaskVal

/-- `Endpoint_BytesToEPSizeMask` (Endpoint.h, lines 121-133): `MaskVal = 0`,
`CheckBytes = 8`, the loop, then `return (MaskVal << EPSIZE0)` converted to the
`uint8_t` return type. -/
def Endpoint_BytesToEPSizeMask (io : IoBits) (fuel : Nat) (Bytes : Nat) : Option Nat :=
  (Endpoint_BytesToEPSizeMask_loop Bytes fuel 0 8).map fun MaskVal => (MaskVal <<< io.EPSIZE0) % 256

/-- `PIPE_MAX_SIZE` (Pipe.h, line 176). -/
def PIPE_MAX_SIZE : Nat := 256

/-- The `while ((CheckBytes < Bytes) && (CheckBytes < PIPE_MAX_SIZE))` loop of
`Pipe_BytesToEPSizeMask` (Pipe.h, lines 882-886). -/
def Pipe_BytesToEPSizeMask_loop (Bytes : Nat) : Nat → Nat → Nat → Option Nat
  | 0, _, _ => none
  | fuel + 1, MaskVal, CheckBytes =>
    if CheckBytes < Bytes ∧ CheckBytes < PIPE_MAX_SIZE then
      Pipe_BytesToEPSizeMask_loop Bytes fuel ((MaskVal + 1) % 256) ((CheckBytes <<< 1) % 65536)
    else
      some MaskVal

/-- `Pipe_BytesToEPSizeMask` (Pipe.h, lines 877-889). -/
def Pipe_BytesToEPSizeMask (io : IoBits) (fuel : Nat) (Bytes : Nat) : Option Nat :=
  (Pipe_BytesToEPSizeMask_loop Bytes fuel 0 8).map fun MaskVal => (MaskVal <<< io.EPSIZE0) % 256

/-- The ordinal of a size mask: the mask shifted right by `EPSIZE0`. -/
def ordinal (io : IoBits) (Mask : Nat) : Nat := Mask >>> io.EPSIZE0

/-! ## Capability table -/

/-- `ENDPOINT_MAX_SIZE(n)`, i.e. `_ENDPOINT_GET_MAXSIZE(n)` over the table
`ENDPOINT_DETAILS_EP0 .. EP6` (Endpoint.h, lines 94-116). An index without a
table entry does not expand: `none`. -/
def ENDPOINT_MAX_SIZE (b : Build) (n : Nat) : Option Nat :=
  if b.USB_SERIES_4_6_7 then
    match n with
    | 0 => some 64
    | 1 => some 256
    | 2 => some 64
    | 3 => some 64
    | 4 => some 64
    | 5 => some 64
    | 6 => some 64
    | _ => none
  else
    match n with
    | 0 => some 64
    | 1 => some 64
    | 2 => some 64
    | 3 => some 64
    | 4 => some 64
    | _ => none

/-- `ENDPOINT_TOTAL_ENDPOINTS` (Endpoint.h, lines 208-220). -/
def ENDPOINT_TOTAL_ENDPOINTS (b : Build) : Nat :=
  if !b.CONTROL_ONLY_DEVICE then
    if b.USB_SERIES_4_6_7 then 7 else 5
  else
    1

/-- `ENDPOINT_CONTROLEP` (Endpoint.h, line 172). -/
def ENDPOINT_CONTROLEP : Nat := 0

/-- `ENDPOINT_EPNUM_MASK` (Endpoint.h, line 184). -/
def ENDPOINT_EPNUM_MASK : Nat := 0x07

/-- `ENDPOINT_DIR_OUT` (Endpoint.h, line 148). -/
def ENDPOINT_DIR_OUT (io : IoBits) : Nat := 0 <<< io.EPDIR

/-- `ENDPOINT_DIR_IN` (Endpoint.h, line 153). -/
def ENDPOINT_DIR_IN (io : IoBits) : Nat := 1 <<< io.EPDIR

/-- `ENDPOINT_BANK_SINGLE` (Endpoint.h, line 160). -/
def ENDPOINT_BANK_SINGLE (io : IoBits) : Nat := 0 <<< io.EPBK0

/-- `ENDPOINT_BANK_DOUBLE` (Endpoint.h, line 167). -/
def ENDPOINT_BANK_DOUBLE (io : IoBits) : Nat := 1 <<< io.EPBK0

/-- `PIPE_PIPENUM_MASK` (Pipe.h, line 163). -/
def PIPE_PIPENUM_MASK : Nat := 0x07

/-- `PIPE_TOTAL_PIPES` (Pipe.h, line 169). -/
def PIPE_TOTAL_PIPES : Nat := 7

/-! ## Registers -/

/-- The registers of one endpoint, seen through the window that `UENUM`
selects. Each holds a byte; `fifo` is the content of the bank that the data
register `UEDATX` gives access to, oldest byte first. -/
structure EPRegs where
  UECONX : Nat
  UECFG0X : Nat
  UECFG1X : Nat
  UESTA0X : Nat
  UEINTX : Nat
  fifo : List Nat

/-- The device-mode register file: the endpoint number register and one set of
endpoint registers per endpoint number. -/
structure DeviceRegs where
  UENUM : Nat
  ep : Nat → EPRegs

/-- The host-mode register file (the part the embedded functions touch). -/
structure HostRegs where
  UPNUM : Nat

/-- The set of endpoint registers the window currently shows: the controller
decodes the three implemented bits of `UENUM`. -/
def DeviceRegs.cur (s : DeviceRegs) : EPRegs := s.ep (s.UENUM % 8)

/-- Store to the windowed endpoint registers. -/
def DeviceRegs.setCur (s : DeviceRegs) (r : EPRegs) : DeviceRegs :=
  { s with ep := fun n => if n = s.UENUM % 8 then r else s.ep n }

/-! ## Channel selector -/

/-- `Endpoint_GetCurrentEndpoint` (Endpoint.h, lines 313-320). -/
def Endpoint_GetCurrentEndpoint (b : Build) (s : DeviceRegs) : Nat :=
  if !b.CONTROL_ONLY_DEVICE then
    s.UENUM &&& ENDPOINT_EPNUM_MASK
  else
    ENDPOINT_CONTROLEP

/-- `Endpoint_SelectEndpoint` (Endpoint.h, lines 332-337); the argument is a
`uint8_t`. -/
def Endpoint_SelectEndpoint (b : Build) (EndpointNumber : Nat) (s : DeviceRegs) : DeviceRegs :=
  if !b.CONTROL_ONLY_DEVICE then
    { s with UENUM := EndpointNumber % 256 }
  else
    s

/-- `Pipe_GetCurrentPipe` (Pipe.h, lines 226-229). -/
def Pipe_GetCurrentPipe (h : HostRegs) : Nat :=
  h.UPNUM &&& PIPE_PIPENUM_MASK

/-- `Pipe_SelectPipe` (Pipe.h, lines 237-240); the argument is a `uint8_t`. -/
def Pipe_SelectPipe (PipeNumber : Nat) (h : HostRegs) : HostRegs :=
  { h with UPNUM := PipeNumber % 256 }

/-! ## Configurator -/

/-- `Endpoint_IsConfigured` (Endpoint.h, lines 402-405). -/
def Endpoint_IsConfigured (io : IoBits) (s : DeviceRegs) : Bool :=
  if s.cur.UESTA0X &&& (1 <<< io.CFGOK) ≠ 0 then true else false

/-- Modelled from the spec: the body of `Endpoint_ConfigureEndpoint_Prv`, which
Endpoint.h only declares (lines 137-139); its definition is in a source file
that is not available. Section 4.3: "write type+direction and size+bank fields
to the channel's configuration registers; mark the channel allocated; read back
a hardware-provided configuration OK status bit and return it as the boolean
result", and "always changes the current channel to index, regardless of
success". The allocation mark is part of `UECFG1XData`. What the controller
reports in its status register after the write is the parameter `hwStatus`
(endpoint number, the two configuration bytes). -/
def Endpoint_ConfigureEndpoint_Prv (io : IoBits) (b : Build) (hwStatus : Nat → Nat → Nat → Nat)
    (Number UECFG0XData UECFG1XData : Nat) (s : DeviceRegs) : Bool × DeviceRegs :=
  let s1 := Endpoint_SelectEndpoint b Number s
  let s2 := s1.setCur { s1.cur with UECFG0X := UECFG0XData % 256, UECFG1X := UECFG1XData % 256 }
  let s3 := s2.setCur { s2.cur with UESTA0X := hwStatus (s2.UENUM % 8) (UECFG0XData % 256) (UECFG1XData % 256) % 256 }
  (Endpoint_IsConfigured io s3, s3)

/-- `Endpoint_ConfigureEndpoint` (Endpoint.h, lines 275-283), over any
implementation `Prv` of `Endpoint_ConfigureEndpoint_Prv` acting on a state
`σ`. The two computed arguments are converted to the `uint8_t` parameters of
`Prv`. `none` when the size encoder does not return. -/
def Endpoint_ConfigureEndpoint {σ : Type} (io : IoBits) (fuel : Nat)
    (Prv : Nat → Nat → Nat → σ → Bool × σ)
    (Number EPType Direction Size Banks : Nat) (s : σ) : Option (Bool × σ) :=
  (Endpoint_BytesToEPSizeMask io fuel Size).map fun Mask =>
    Prv Number (((EPType <<< io.EPTYPE0) ||| Direction) % 256)
      ((((1 <<< io.ALLOC) ||| Banks) ||| Mask) % 256) s

/-- The register file after reset used for concrete evaluations: every register
reads zero. -/
def resetRegs : DeviceRegs where
  UENUM := 0
  ep := fun _ =>
    { UECONX := 0, UECFG0X := 0, UECFG1X := 0, UESTA0X := 0, UEINTX := 0, fifo := [] }

/-! ## Register access -/

/-- The C expression `x & ~m` on a register byte `x` and a mask `m`: the bits
of `m` cleared in `x`. -/
def andNot (x m : Nat) : Nat := x ^^^ (x &&& m)

/-- The registers of the selected pipe, seen through the window that `UPNUM`
selects. Each holds a byte. -/
structure PipeRegs where
  UPCONX : Nat
  UPCFG0X : Nat
  UPCFG1X : Nat
  UPSTAX : Nat
  UPINTX : Nat
  UPERRX : Nat

/-- Pipe registers that all read zero, used for concrete evaluations. -/
def resetPipe : PipeRegs where
  UPCONX := 0
  UPCFG0X := 0
  UPCFG1X := 0
  UPSTAX := 0
  UPINTX := 0
  UPERRX := 0

/-! ## Enable, stall, direction and packet completion (device mode) -/

/-- `Endpoint_EnableEndpoint` (Endpoint.h, lines 357-360). -/
def Endpoint_EnableEndpoint (io : IoBits) (s : DeviceRegs) : DeviceRegs :=
  s.setCur { s.cur with UECONX := (s.cur.UECONX ||| (1 <<< io.EPEN)) % 256 }

/-- `Endpoint_DisableEndpoint` (Endpoint.h, lines 366-369). -/
def Endpoint_DisableEndpoint (io : IoBits) (s : DeviceRegs) : DeviceRegs :=
  s.setCur { s.cur with UECONX := (andNot s.cur.UECONX (1 <<< io.EPEN)) % 256 }

/-- `Endpoint_IsEnabled` (Endpoint.h, lines 376-379). -/
def Endpoint_IsEnabled (io : IoBits) (s : DeviceRegs) : Bool :=
  if s.cur.UECONX &&& (1 <<< io.EPEN) ≠ 0 then true else false

/-- `Endpoint_ClearSETUP` (Endpoint.h, lines 476-479). -/
def Endpoint_ClearSETUP (io : IoBits) (s : DeviceRegs) : DeviceRegs :=
  s.setCur { s.cur with UEINTX := (andNot s.cur.UEINTX (1 <<< io.RXSTPI)) % 256 }

/-- `Endpoint_ClearIN` (Endpoint.h, lines 487-494). -/
def Endpoint_ClearIN (io : IoBits) (b : Build) (s : DeviceRegs) : DeviceRegs :=
  if !b.CONTROL_ONLY_DEVICE then
    s.setCur { s.cur with
      UEINTX := (andNot s.cur.UEINTX ((1 <<< io.TXINI) ||| (1 <<< io.FIFOCON))) % 256 }
  else
    s.setCur { s.cur with UEINTX := (andNot s.cur.UEINTX (1 <<< io.TXINI)) % 256 }

/-- `Endpoint_ClearOUT` (Endpoint.h, lines 502-509). -/
def Endpoint_ClearOUT (io : IoBits) (b : Build) (s : DeviceRegs) : DeviceRegs :=
  if !b.CONTROL_ONLY_DEVICE then
    s.setCur { s.cur with
      UEINTX := (andNot s.cur.UEINTX ((1 <<< io.RXOUTI) ||| (1 <<< io.FIFOCON))) % 256 }
  else
    s.setCur { s.cur with UEINTX := (andNot s.cur.UEINTX (1 <<< io.RXOUTI)) % 256 }

/-- `Endpoint_StallTransaction` (Endpoint.h, lines 523-526). -/
def Endpoint_StallTransaction (io : IoBits) (s : DeviceRegs) : DeviceRegs :=
  s.setCur { s.cur with UECONX := (s.cur.UECONX ||| (1 <<< io.STALLRQ)) % 256 }

/-- The controller's reaction to a store to `UECONX`. `STALLRQC` is a command
bit: a byte stored with that bit set asks the controller to end the stall, and
the controller clears the stall request `STALLRQ` (Endpoint.h, lines 516-518:
"The currently selected endpoint remains stalled until either the
Endpoint_ClearStall() macro is called, or ..."; line 528: "Clears the STALL
condition on the currently selected endpoint"). The result is the byte the
register holds after the reaction; no other bit is changed, and a byte stored
without the command bit is kept as it is. -/
def stallClearReaction (io : IoBits) (stored : Nat) : Nat :=
  if stored &&& (1 <<< io.STALLRQC) ≠ 0 then andNot stored (1 <<< io.STALLRQ) else stored

/-- `Endpoint_ClearStall` (Endpoint.h, lines 533-536): the store
`UECONX |= (1 << STALLRQC)`, followed by the controller's reaction to the byte
stored. -/
def Endpoint_ClearStall (io : IoBits) (s : DeviceRegs) : DeviceRegs :=
  s.setCur { s.cur with
    UECONX := (stallClearReaction io ((s.cur.UECONX ||| (1 <<< io.STALLRQC)) % 256)) % 256 }

/-- `Endpoint_IsStalled` (Endpoint.h, lines 545-548). -/
def Endpoint_IsStalled (io : IoBits) (s : DeviceRegs) : Bool :=
  if s.cur.UECONX &&& (1 <<< io.STALLRQ) ≠ 0 then true else false

/-- `Endpoint_ResetDataToggle` (Endpoint.h, lines 552-555). -/
def Endpoint_ResetDataToggle (io : IoBits) (s : DeviceRegs) : DeviceRegs :=
  s.setCur { s.cur with UECONX := (s.cur.UECONX ||| (1 <<< io.RSTDT)) % 256 }

/-- `Endpoint_SetEndpointDirection` (Endpoint.h, lines 572-575). -/
def Endpoint_SetEndpointDirection (io : IoBits) (DirectionMask : Nat) (s : DeviceRegs) :
    DeviceRegs :=
  s.setCur { s.cur with
    UECFG0X := ((andNot s.cur.UECFG0X (ENDPOINT_DIR_IN io)) ||| DirectionMask) % 256 }

/-! ## Enable and stall (host mode) -/

/-- `Pipe_EnablePipe` (Pipe.h, lines 259-262). -/
def Pipe_EnablePipe (io : IoBits) (p : PipeRegs) : PipeRegs :=
  { p with UPCONX := (p.UPCONX ||| (1 <<< io.PEN)) % 256 }

/-- `Pipe_DisablePipe` (Pipe.h, lines 268-271). -/
def Pipe_DisablePipe (io : IoBits) (p : PipeRegs) : PipeRegs :=
  { p with UPCONX := (andNot p.UPCONX (1 <<< io.PEN)) % 256 }

/-- `Pipe_IsEnabled` (Pipe.h, lines 278-281). -/
def Pipe_IsEnabled (io : IoBits) (p : PipeRegs) : Bool :=
  if p.UPCONX &&& (1 <<< io.PEN) ≠ 0 then true else false

/-- `Pipe_IsStalled` (Pipe.h, lines 569-572). -/
def Pipe_IsStalled (io : IoBits) (p : PipeRegs) : Bool :=
  if p.UPINTX &&& (1 <<< io.RXSTALLI) ≠ 0 then true else false

/-- `Pipe_ClearStall` (Pipe.h, lines 580-583). -/
def Pipe_ClearStall (io : IoBits) (p : PipeRegs) : PipeRegs :=
  { p with UPINTX := (andNot p.UPINTX (1 <<< io.RXSTALLI)) % 256 }

/-! ## FIFO data primitives -/

/-- Modelled from the spec: a read of the data register (`UEDATX`, `UPDATX`);
what the register does is in the controller, not in the repository. Section 3:
"Bank: hardware FIFO memory bound to a channel"; section 4.5: the primitives
operate "on the active channel's current bank position, advancing it by the
access width". The read takes the oldest byte of the bank. On an empty bank the
outcome is hardware-defined: `none`. -/
def dataRead : List Nat → Option (Nat × List Nat)
  | [] => none
  | x :: rest => some (x % 256, rest)

/-- Modelled from the spec: a write of a byte to the data register (`UEDATX`,
`UPDATX`); see `dataRead`. The byte becomes the newest byte of the bank. -/
def dataWrite (v : Nat) (fifo : List Nat) : List Nat :=
  fifo ++ [v % 256]

/-- The member `Word` of `union { uint16_t Word; uint8_t Bytes[2]; }` on the
little-endian AVR target: `Bytes[0]` is the least significant byte. -/
def unionWord (Bytes0 Bytes1 : Nat) : Nat :=
  Bytes0 + 256 * Bytes1

/-- The member `DWord` of `union { uint32_t DWord; uint8_t Bytes[4]; }` on the
little-endian AVR target: `Bytes[0]` is the least significant byte. -/
def unionDWord (Bytes0 Bytes1 Bytes2 Bytes3 : Nat) : Nat :=
  Bytes0 + 2 ^ 8 * Bytes1 + 2 ^ 16 * Bytes2 + 2 ^ 24 * Bytes3

/-- `Endpoint_Read_Byte` (Endpoint.h, lines 584-587): `return UEDATX`. -/
def Endpoint_Read_Byte (fifo : List Nat) : Option (Nat × List Nat) :=
  dataRead fifo

/-- `Endpoint_Write_Byte` (Endpoint.h, lines 596-599). -/
def Endpoint_Write_Byte (Byte : Nat) (fifo : List Nat) : List Nat :=
  dataWrite Byte fifo

/-- `Endpoint_Discard_Byte` (Endpoint.h, lines 606-611): one read into `Dummy`. -/
def Endpoint_Discard_Byte (fifo : List Nat) : Option (List Nat) := do
  let (_, f1) ← dataRead fifo
  pure f1

/-- `Endpoint_Read_Word_LE` (Endpoint.h, lines 621-633): `Bytes[0]` is read first. -/
def Endpoint_Read_Word_LE (fifo : List Nat) : Option (Nat × List Nat) := do
  let (Bytes0, f1) ← dataRead fifo
  let (Bytes1, f2) ← dataRead f1
  pure (unionWord Bytes0 Bytes1, f2)

/-- `Endpoint_Read_Word_BE` (Endpoint.h, lines 643-655): `Bytes[1]` is read first. -/
def Endpoint_Read_Word_BE (fifo : List Nat) : Option (Nat × List Nat) := do
  let (Bytes1, f1) ← dataRead fifo
  let (Bytes0, f2) ← dataRead f1
  pure (unionWord Bytes0 Bytes1, f2)

/-- `Endpoint_Write_Word_LE` (Endpoint.h, lines 665-669); `Word` is a `uint16_t`. -/
def Endpoint_Write_Word_LE (Word : Nat) (fifo : List Nat) : List Nat :=
  let f1 := dataWrite (Word &&& 0xFF) fifo
  dataWrite (Word >>> 8) f1

/-- `Endpoint_Write_Word_BE` (Endpoint.h, lines 679-683); `Word` is a `uint16_t`. -/
def Endpoint_Write_Word_BE (Word : Nat) (fifo : List Nat) : List Nat :=
  let f1 := dataWrite (Word >>> 8) fifo
  dataWrite (Word &&& 0xFF) f1

/-- `Endpoint_Discard_Word` (Endpoint.h, lines 690-696): two reads into `Dummy`. -/
def Endpoint_Discard_Word (fifo : List Nat) : Option (List Nat) := do
  let (_, f1) ← dataRead fifo
  let (_, f2) ← dataRead f1
  pure f2

/-- `Endpoint_Read_DWord_LE` (Endpoint.h, lines 706-720): `Bytes[0]` is read first. -/
def Endpoint_Read_DWord_LE (fifo : List Nat) : Option (Nat × List Nat) := do
  let (Bytes0, f1) ← dataRead fifo
  let (Bytes1, f2) ← dataRead f1
  let (Bytes2, f3) ← dataRead f2
  let (Bytes3, f4) ← dataRead f3
  pure (unionDWord Bytes0 Bytes1 Bytes2 Bytes3, f4)

/-- `Endpoint_Read_DWord_BE` (Endpoint.h, lines 730-744): `Bytes[3]` is read first. -/
def Endpoint_Read_DWord_BE (fifo : List Nat) : Option (Nat × List Nat) := do
  let (Bytes3, f1) ← dataRead fifo
  let (Bytes2, f2) ← dataRead f1
  let (Bytes1, f3) ← dataRead f2
  let (Bytes0, f4) ← dataRead f3
  pure (unionDWord Bytes0 Bytes1 Bytes2 Bytes3, f4)

/-- `Endpoint_Write_DWord_LE` (Endpoint.h, lines 754-760); `DWord` is a `uint32_t`. -/
def Endpoint_Write_DWord_LE (DWord : Nat) (fifo : List Nat) : List Nat :=
  let f1 := dataWrite (DWord &&& 0xFF) fifo
  let f2 := dataWrite (DWord >>> 8) f1
  let f3 := dataWrite (DWord >>> 16) f2
  dataWrite (DWord >>> 24) f3

/-- `Endpoint_Write_DWord_BE` (Endpoint.h, lines 770-776); `DWord` is a `uint32_t`. -/
def Endpoint_Write_DWord_BE (DWord : Nat) (fifo : List Nat) : List Nat :=
  let f1 := dataWrite (DWord >>> 24) fifo
  let f2 := dataWrite (DWord >>> 16) f1
  let f3 := dataWrite (DWord >>> 8) f2
  dataWrite (DWord &&& 0xFF) f3

/-- `Endpoint_Discard_DWord` (Endpoint.h, lines 783-791): four reads into `Dummy`. -/
def Endpoint_Discard_DWord (fifo : List Nat) : Option (List Nat) := do
  let (_, f1) ← dataRead fifo
  let (_, f2) ← dataRead f1
  let (_, f3) ← dataRead f2
  let (_, f4) ← dataRead f3
  pure f4

/-- `Pipe_Read_Byte` (Pipe.h, lines 592-595): `return UPDATX`. -/
def Pipe_Read_Byte (fifo : List Nat) : Option (Nat × List Nat) :=
  dataRead fifo

/-- `Pipe_Write_Byte` (Pipe.h, lines 604-607). -/
def Pipe_Write_Byte (Byte : Nat) (fifo : List Nat) : List Nat :=
  dataWrite Byte fifo

/-- `Pipe_Discard_Byte` (Pipe.h, lines 614-619): one read into `Dummy`. -/
def Pipe_Discard_Byte (fifo : List Nat) : Option (List Nat) := do
  let (_, f1) ← dataRead fifo
  pure f1

/-- `Pipe_Read_Word_LE` (Pipe.h, lines 629-641): `Bytes[0]` is read first. -/
def Pipe_Read_Word_LE (fifo : List Nat) : Option (Nat × List Nat) := do
  let (Bytes0, f1) ← dataRead fifo
  let (Bytes1, f2) ← dataRead f1
  pure (unionWord Bytes0 Bytes1, f2)

/-- `Pipe_Read_Word_BE` (Pipe.h, lines 651-663): `Bytes[1]` is read first. -/
def Pipe_Read_Word_BE (fifo : List Nat) : Option (Nat × List Nat) := do
  let (Bytes1, f1) ← dataRead fifo
  let (Bytes0, f2) ← dataRead f1
  pure (unionWord Bytes0 Bytes1, f2)

/-- `Pipe_Write_Word_LE` (Pipe.h, lines 673-677); `Word` is a `uint16_t`. -/
def Pipe_Write_Word_LE (Word : Nat) (fifo : List Nat) : List Nat :=
  let f1 := dataWrite (Word &&& 0xFF) fifo
  dataWrite (Word >>> 8) f1

/-- `Pipe_Write_Word_BE` (Pipe.h, lines 687-691); `Word` is a `uint16_t`. -/
def Pipe_Write_Word_BE (Word : Nat) (fifo : List Nat) : List Nat :=
  let f1 := dataWrite (Word >>> 8) fifo
  dataWrite (Word &&& 0xFF) f1

/-- `Pipe_Discard_Word` (Pipe.h, lines 698-704): two reads into `Dummy`. -/
def Pipe_Discard_Word (fifo : List Nat) : Option (List Nat) := do
  let (_, f1) ← dataRead fifo
  let (_, f2) ← dataRead f1
  pure f2

/-- `Pipe_Read_DWord_LE` (Pipe.h, lines 714-728): `Bytes[0]` is read first. -/
def Pipe_Read_DWord_LE (fifo : List Nat) : Option (Nat × List Nat) := do
  let (Bytes0, f1) ← dataRead fifo
  let (Bytes1, f2) ← dataRead f1
  let (Bytes2, f3) ← dataRead f2
  let (Bytes3, f4) ← dataRead f3
  pure (unionDWord Bytes0 Bytes1 Bytes2 Bytes3, f4)

/-- `Pipe_Read_DWord_BE` (Pipe.h, lines 738-752): `Bytes[3]` is read first. -/
def Pipe_Read_DWord_BE (fifo : List Nat) : Option (Nat × List Nat) := do
  let (Bytes3, f1) ← dataRead fifo
  let (Bytes2, f2) ← dataRead f1
  let (Bytes1, f3) ← dataRead f2
  let (Bytes0, f4) ← dataRead f3
  pure (unionDWord Bytes0 Bytes1 Bytes2 Bytes3, f4)

/-- `Pipe_Write_DWord_LE` (Pipe.h, lines 762-768); `DWord` is a `uint32_t`. -/
def Pipe_Write_DWord_LE (DWord : Nat) (fifo : List Nat) : List Nat :=
  let f1 := dataWrite (DWord &&& 0xFF) fifo
  let f2 := dataWrite (DWord >>> 8) f1
  let f3 := dataWrite (DWord >>> 16) f2
  dataWrite (DWord >>> 24) f3

/-- `Pipe_Write_DWord_BE` (Pipe.h, lines 778-784); `DWord` is a `uint32_t`. -/
def Pipe_Write_DWord_BE (DWord : Nat) (fifo : List Nat) : List Nat :=
  let f1 := dataWrite (DWord >>> 24) fifo
  let f2 := dataWrite (DWord >>> 16) f1
  let f3 := dataWrite (DWord >>> 8) f2
  dataWrite (DWord &&& 0xFF) f3

/-- `Pipe_Discard_DWord` (Pipe.h, lines 791-799): four reads into `Dummy`. -/
def Pipe_Discard_DWord (fifo : List Nat) : Option (List Nat) := do
  let (_, f1) ← dataRead fifo
  let (_, f2) ← dataRead f1
  let (_, f3) ← dataRead f2
  let (_, f4) ← dataRead f3
  pure f4

/-! ## Sequences of operations on the selected endpoint -/

/-- A FIFO write applied to the bank of the selected endpoint. -/
def DeviceRegs.fifoWrite (f : List Nat → List Nat) (s : DeviceRegs) : DeviceRegs :=
  s.setCur { s.cur with fifo := f s.cur.fifo }

/-- A FIFO read applied to the bank of the selected endpoint; the value read is
dropped. -/
def DeviceRegs.fifoRead (f : List Nat → Option (Nat × List Nat)) (s : DeviceRegs) :
    Option DeviceRegs :=
  (f s.cur.fifo).map fun r => s.setCur { s.cur with fifo := r.2 }

/-- A FIFO discard applied to the bank of the selected endpoint. -/
def DeviceRegs.fifoDiscard (f : List Nat → Option (List Nat)) (s : DeviceRegs) :
    Option DeviceRegs :=
  (f s.cur.fifo).map fun r => s.setCur { s.cur with fifo := r }

/-- The operations of the layer on the selected endpoint other than
`Endpoint_ClearStall`: enable, disable, data toggle reset, direction, stall,
packet completion, and the FIFO reads, writes and discards. -/
inductive EndpointOp where
  | EnableEndpoint
  | DisableEndpoint
  | ResetDataToggle
  | SetEndpointDirection (DirectionMask : Nat)
  | StallTransaction
  | ClearSETUP
  | ClearIN
  | ClearOUT
  | Read_Byte
  | Write_Byte (Byte : Nat)
  | Discard_Byte
  | Read_Word_LE
  | Read_Word_BE
  | Write_Word_LE (Word : Nat)
  | Write_Word_BE (Word : Nat)
  | Discard_Word
  | Read_DWord_LE
  | Read_DWord_BE
  | Write_DWord_LE (DWord : Nat)
  | Write_DWord_BE (DWord : Nat)
  | Discard_DWord

/-- Whether the operation takes bytes out of the bank. -/
def EndpointOp.reads : EndpointOp → Bool
  | .Read_Byte => true
  | .Discard_Byte => true
  | .Read_Word_LE => true
  | .Read_Word_BE => true
  | .Discard_Word => true
  | .Read_DWord_LE => true
  | .Read_DWord_BE => true
  | .Discard_DWord => true
  | _ => false

/-- One operation on the selected endpoint; `none` when a read or discard finds
too few bytes in the bank. -/
def EndpointOp.step (io : IoBits) (b : Build) : EndpointOp → DeviceRegs → Option DeviceRegs
  | .EnableEndpoint, s => some (Endpoint_EnableEndpoint io s)
  | .DisableEndpoint, s => some (Endpoint_DisableEndpoint io s)
  | .ResetDataToggle, s => some (Endpoint_ResetDataToggle io s)
  | .SetEndpointDirection d, s => some (Endpoint_SetEndpointDirection io d s)
  | .StallTransaction, s => some (Endpoint_StallTransaction io s)
  | .ClearSETUP, s => some (Endpoint_ClearSETUP io s)
  | .ClearIN, s => some (Endpoint_ClearIN io b s)
  | .ClearOUT, s => some (Endpoint_ClearOUT io b s)
  | .Read_Byte, s => s.fifoRead Endpoint_Read_Byte
  | .Write_Byte v, s => some (s.fifoWrite (Endpoint_Write_Byte v))
  | .Discard_Byte, s => s.fifoDiscard Endpoint_Discard_Byte
  | .Read_Word_LE, s => s.fifoRead Endpoint_Read_Word_LE
  | .Read_Word_BE, s => s.fifoRead Endpoint_Read_Word_BE
  | .Write_Word_LE v, s => some (s.fifoWrite (Endpoint_Write_Word_LE v))
  | .Write_Word_BE v, s => some (s.fifoWrite (Endpoint_Write_Word_BE v))
  | .Discard_Word, s => s.fifoDiscard Endpoint_Discard_Word
  | .Read_DWord_LE, s => s.fifoRead Endpoint_Read_DWord_LE
  | .Read_DWord_BE, s => s.fifoRead Endpoint_Read_DWord_BE
  | .Write_DWord_LE v, s => some (s.fifoWrite (Endpoint_Write_DWord_LE v))
  | .Write_DWord_BE v, s => some (s.fifoWrite (Endpoint_Write_DWord_BE v))
  | .Discard_DWord, s => s.fifoDiscard Endpoint_Discard_DWord

/-- A sequence of operations on the selected endpoint, run in order. -/
def EndpointOp.run (io : IoBits) (b : Build) : List EndpointOp → DeviceRegs → Option DeviceRegs
  | [], s => some s
  | op :: ops, s => (op.step io b s).bind (EndpointOp.run io b ops)

/-! ## Packet flags and direction (device mode) -/

/-- `Endpoint_IsINReady` (Endpoint.h, lines 439-442). -/
def Endpoint_IsINReady (io : IoBits) (s : DeviceRegs) : Bool :=
  if s.cur.UEINTX &&& (1 <<< io.TXINI) ≠ 0 then true else false

/-- `Endpoint_IsOUTReceived` (Endpoint.h, lines 451-454). -/
def Endpoint_IsOUTReceived (io : IoBits) (s : DeviceRegs) : Bool :=
  if s.cur.UEINTX &&& (1 <<< io.RXOUTI) ≠ 0 then true else false

/-- `Endpoint_IsSETUPReceived` (Endpoint.h, lines 463-466). -/
def Endpoint_IsSETUPReceived (io : IoBits) (s : DeviceRegs) : Bool :=
  if s.cur.UEINTX &&& (1 <<< io.RXSTPI) ≠ 0 then true else false

/-- `Endpoint_GetEndpointDirection` (Endpoint.h, lines 562-565). -/
def Endpoint_GetEndpointDirection (io : IoBits) (s : DeviceRegs) : Nat :=
  (s.cur.UECFG0X &&& ENDPOINT_DIR_IN io) % 256

/-! ## Token, bound endpoint and error flags (host mode) -/

/-- `PIPE_ERRORFLAG_OVERFLOW` (Pipe.h, line 102). -/
def PIPE_ERRORFLAG_OVERFLOW : Nat := 1 <<< 6

/-- `PIPE_ERRORFLAG_UNDERFLOW` (Pipe.h, line 105). -/
def PIPE_ERRORFLAG_UNDERFLOW : Nat := 1 <<< 5

/-- `PIPE_ERRORFLAG_CRC16` (Pipe.h, line 108). -/
def PIPE_ERRORFLAG_CRC16 : Nat := 1 <<< 4

/-- `PIPE_ERRORFLAG_TIMEOUT` (Pipe.h, line 111). -/
def PIPE_ERRORFLAG_TIMEOUT : Nat := 1 <<< 3

/-- `PIPE_ERRORFLAG_PID` (Pipe.h, line 114). -/
def PIPE_ERRORFLAG_PID : Nat := 1 <<< 2

/-- `PIPE_ERRORFLAG_DATAPID` (Pipe.h, line 117). -/
def PIPE_ERRORFLAG_DATAPID : Nat := 1 <<< 1

/-- `PIPE_ERRORFLAG_DATATGL` (Pipe.h, line 120). -/
def PIPE_ERRORFLAG_DATATGL : Nat := 1 <<< 0

/-- `PIPE_TOKEN_SETUP` (Pipe.h, line 125). -/
def PIPE_TOKEN_SETUP (io : IoBits) : Nat := 0 <<< io.PTOKEN0

/-- `PIPE_TOKEN_IN` (Pipe.h, line 130). -/
def PIPE_TOKEN_IN (io : IoBits) : Nat := 1 <<< io.PTOKEN0

/-- `PIPE_TOKEN_OUT` (Pipe.h, line 135). -/
def PIPE_TOKEN_OUT (io : IoBits) : Nat := 2 <<< io.PTOKEN0

/-- `PIPE_EPNUM_MASK` (Pipe.h, line 181). -/
def PIPE_EPNUM_MASK : Nat := 0x0F

/-- `Pipe_GetPipeToken` (Pipe.h, lines 288-291). -/
def Pipe_GetPipeToken (io : IoBits) (p : PipeRegs) : Nat :=
  (p.UPCFG0X &&& (0x03 <<< io.PTOKEN0)) % 256

/-- `Pipe_SetPipeToken` (Pipe.h, lines 301-304). -/
def Pipe_SetPipeToken (io : IoBits) (Token : Nat) (p : PipeRegs) : PipeRegs :=
  { p with UPCFG0X := ((andNot p.UPCFG0X (0x03 <<< io.PTOKEN0)) ||| Token) % 256 }

/-- `Pipe_BoundEndpointNumber` (Pipe.h, lines 341-344). -/
def Pipe_BoundEndpointNumber (io : IoBits) (p : PipeRegs) : Nat :=
  ((p.UPCFG0X >>> io.PEPNUM0) &&& PIPE_EPNUM_MASK) % 256

/-- `Pipe_ClearError` (Pipe.h, lines 406-409). -/
def Pipe_ClearError (io : IoBits) (p : PipeRegs) : PipeRegs :=
  { p with UPINTX := (andNot p.UPINTX (1 <<< io.PERRI)) % 256 }

/-- `Pipe_IsError` (Pipe.h, lines 419-422). -/
def Pipe_IsError (io : IoBits) (p : PipeRegs) : Bool :=
  if p.UPINTX &&& (1 <<< io.PERRI) ≠ 0 then true else false

/-- `Pipe_ClearErrorFlags` (Pipe.h, lines 428-431). -/
def Pipe_ClearErrorFlags (p : PipeRegs) : PipeRegs :=
  { p with UPERRX := 0 }

/-- `Pipe_GetErrorFlags` (Pipe.h, lines 439-445). -/
def Pipe_GetErrorFlags (p : PipeRegs) : Nat :=
  ((p.UPERRX &&& (PIPE_ERRORFLAG_CRC16 ||| PIPE_ERRORFLAG_TIMEOUT |||
                  PIPE_ERRORFLAG_PID ||| PIPE_ERRORFLAG_DATAPID |||
                  PIPE_ERRORFLAG_DATATGL)) |||
   (p.UPSTAX &&& (PIPE_ERRORFLAG_OVERFLOW ||| PIPE_ERRORFLAG_UNDERFLOW))) % 256

/-! ## Readiness wait -/

/-- `ENDPOINT_READYWAIT_NoError` (Endpoint.h, line 229). -/
def ENDPOINT_READYWAIT_NoError : Nat := 0

/-- `ENDPOINT_READYWAIT_EndpointStalled` (Endpoint.h, line 230). -/
def ENDPOINT_READYWAIT_EndpointStalled : Nat := 1

/-- `ENDPOINT_READYWAIT_DeviceDisconnected` (Endpoint.h, line 233). -/
def ENDPOINT_READYWAIT_DeviceDisconnected : Nat := 2

/-- `ENDPOINT_READYWAIT_BusSuspended` (Endpoint.h, line 236). -/
def ENDPOINT_READYWAIT_BusSuspended : Nat := 3

/-- `ENDPOINT_READYWAIT_Timeout` (Endpoint.h, line 240). -/
def ENDPOINT_READYWAIT_Timeout : Nat := 4

/-- `PIPE_READYWAIT_NoError` (Pipe.h, line 195). -/
def PIPE_READYWAIT_NoError : Nat := 0

/-- `PIPE_READYWAIT_PipeStalled` (Pipe.h, line 196). -/
def PIPE_READYWAIT_PipeStalled : Nat := 1

/-- `PIPE_READYWAIT_DeviceDisconnected` (Pipe.h, line 197). -/
def PIPE_READYWAIT_DeviceDisconnected : Nat := 2

/-- `PIPE_READYWAIT_Timeout` (Pipe.h, line 198). -/
def PIPE_READYWAIT_Timeout : Nat := 3

/-- What one poll of the wait loop finds: the stall, disconnect and bus suspend
conditions, the ready flag of the selected channel, and the milliseconds that
the software timer counts since the call. -/
structure Poll where
  stalled : Bool
  disconnected : Bool
  suspended : Bool
  ready : Bool
  elapsedMs : Nat

/-- Modelled from the spec: the body of `Endpoint_WaitUntilReady`, which
Endpoint.h only declares (line 831). Section 4.4: the call "repeatedly polls,
in order of priority: stall condition (terminal, return Stalled), disconnect
condition (terminal, return Disconnected), bus-suspend condition for device
role (terminal, return Suspended), readiness flag (terminal success, return
Ready), else check elapsed software timer against a configured millisecond
budget (terminal, return Timeout on expiry), else continue polling". The
argument `env` gives what the poll number `i` finds, `timeoutMs` is the
configured budget; the loop starts at poll `i`. -/
def Endpoint_WaitUntilReady (timeoutMs : Nat) (env : Nat → Poll) : Nat → Nat → Option Nat
  | 0, _ => none
  | fuel + 1, i =>
    if (env i).stalled then some ENDPOINT_READYWAIT_EndpointStalled
    else if (env i).disconnected then some ENDPOINT_READYWAIT_DeviceDisconnected
    else if (env i).suspended then some ENDPOINT_READYWAIT_BusSuspended
    else if (env i).ready then some ENDPOINT_READYWAIT_NoError
    else if timeoutMs ≤ (env i).elapsedMs then some ENDPOINT_READYWAIT_Timeout
    else Endpoint_WaitUntilReady timeoutMs env fuel (i + 1)

/-- Modelled from the spec: the body of `Pipe_WaitUntilReady`, which Pipe.h only
declares (line 856). Section 4.4, as for `Endpoint_WaitUntilReady`, without the
bus suspend test, which is "for device role" only. -/
def Pipe_WaitUntilReady (timeoutMs : Nat) (env : Nat → Poll) : Nat → Nat → Option Nat
  | 0, _ => none
  | fuel + 1, i =>
    if (env i).stalled then some PIPE_READYWAIT_PipeStalled
    else if (env i).disconnected then some PIPE_READYWAIT_DeviceDisconnected
    else if (env i).ready then some PIPE_READYWAIT_NoError
    else if timeoutMs ≤ (env i).elapsedMs then some PIPE_READYWAIT_Timeout
    else Pipe_WaitUntilReady timeoutMs env fuel (i + 1)

/-- A poll at which the device-mode wait goes on: no condition holds, the flag
is not set and the budget is not used up. -/
def Poll.quiet (timeoutMs : Nat) (p : Poll) : Prop :=
  p.stalled = false ∧ p.disconnected = false ∧ p.suspended = false ∧ p.ready = false ∧
    p.elapsedMs < timeoutMs

/-- A poll at which the host-mode wait goes on. -/
def Poll.pipeQuiet (timeoutMs : Nat) (p : Poll) : Prop :=
  p.stalled = false ∧ p.disconnected = false ∧ p.ready = false ∧ p.elapsedMs < timeoutMs

/-! ## Lemmas on the size encoder loops -/

theorem shiftLeft_one_pow (m : Nat) (h : 8 * 2 ^ m < 32768) :
    ((8 * 2 ^ m) <<< 1) % 65536 = 8 * 2 ^ (m + 1) := by
  rw [Nat.shiftLeft_eq, pow_succ]
  omega

/-- The device-mode loop, started at `(m, 8 * 2^m)` with every lower class too
small, stops at the smallest class that holds `Bytes`, for `Bytes ≤ 32768`. -/
theorem Endpoint_loop_spec (Bytes : Nat) (hB : Bytes ≤ 32768) :
    ∀ (d m fuel : Nat), m + d = 12 → d < fuel → (∀ j, j < m → 8 * 2 ^ j < Bytes) →
      ∃ c, Endpoint_BytesToEPSizeMask_loop Bytes fuel m (8 * 2 ^ m) = some c ∧ c ≤ 12 ∧
        Bytes ≤ 8 * 2 ^ c ∧ ∀ j, j < c → 8 * 2 ^ j < Bytes := by
  intro d
  induction d with
  | zero =>
    intro m fuel hm hf hlt
    obtain ⟨f, rfl⟩ : ∃ f, fuel = f + 1 := ⟨fuel - 1, by omega⟩
    have h12 : m = 12 := by omega
    subst h12
    refine ⟨12, ?_, le_refl _, by norm_num; exact hB, hlt⟩
    rw [Endpoint_BytesToEPSizeMask_loop, if_neg]
    norm_num
    exact hB
  | succ d ih =>
    intro m fuel hm hf hlt
    obtain ⟨f, rfl⟩ : ∃ f, fuel = f + 1 := ⟨fuel - 1, by omega⟩
    by_cases hc : 8 * 2 ^ m < Bytes
    · have h1 : (m + 1) % 256 = m + 1 := by omega
      have h2 := shiftLeft_one_pow m (by omega)
      obtain ⟨c, hc1, hc2, hc3, hc4⟩ := ih (m + 1) f (by omega) (by omega) (by
        intro j hj
        rcases Nat.lt_succ_iff_lt_or_eq.mp hj with h | h
        · exact hlt j h
        · rw [h]; exact hc)
      refine ⟨c, ?_, hc2, hc3, hc4⟩
      rw [Endpoint_BytesToEPSizeMask_loop, if_pos hc, h1, h2]
      exact hc1
    · refine ⟨m, ?_, by omega, by omega, hlt⟩
      rw [Endpoint_BytesToEPSizeMask_loop, if_neg hc]

/-- The host-mode loop, started at `(m, 8 * 2^m)` with every lower class too
small, stops at the smallest class that holds `Bytes` or at class 5. -/
theorem Pipe_loop_spec (Bytes : Nat) :
    ∀ (d m fuel : Nat), m + d = 5 → d < fuel → (∀ j, j < m → 8 * 2 ^ j < Bytes) →
      ∃ c, Pipe_BytesToEPSizeMask_loop Bytes fuel m (8 * 2 ^ m) = some c ∧ c ≤ 5 ∧
        (Bytes ≤ 8 * 2 ^ c ∨ c = 5) ∧ ∀ j, j < c → 8 * 2 ^ j < Bytes := by
  intro d
  induction d with
  | zero =>
    intro m fuel hm hf hlt
    obtain ⟨f, rfl⟩ : ∃ f, fuel = f + 1 := ⟨fuel - 1, by omega⟩
    have h5 : m = 5 := by omega
    subst h5
    refine ⟨5, ?_, le_refl _, Or.inr rfl, hlt⟩
    rw [Pipe_BytesToEPSizeMask_loop, if_neg]
    simp [PIPE_MAX_SIZE]
  | succ d ih =>
    intro m fuel hm hf hlt
    obtain ⟨f, rfl⟩ : ∃ f, fuel = f + 1 := ⟨fuel - 1, by omega⟩
    have hm4 : m ≤ 4 := by omega
    have hpow : 8 * 2 ^ m < 256 := by
      have : 2 ^ m ≤ 2 ^ 4 := Nat.pow_le_pow_right (by norm_num) hm4
      omega
    by_cases hc : 8 * 2 ^ m < Bytes
    · have h1 : (m + 1) % 256 = m + 1 := by omega
      have h2 := shiftLeft_one_pow m (by omega)
      obtain ⟨c, hc1, hc2, hc3, hc4⟩ := ih (m + 1) f (by omega) (by omega) (by
        intro j hj
        rcases Nat.lt_succ_iff_lt_or_eq.mp hj with h | h
        · exact hlt j h
        · rw [h]; exact hc)
      refine ⟨c, ?_, hc2, hc3, hc4⟩
      rw [Pipe_BytesToEPSizeMask_loop, if_pos ⟨hc, hpow⟩, h1, h2]
      exact hc1
    · refine ⟨m, ?_, by omega, Or.inl (by omega), hlt⟩
      rw [Pipe_BytesToEPSizeMask_loop, if_neg (fun h => hc h.1)]

/-- No truncation and exact read-back of a class `c ≤ 5` placed at a size field
that starts at bit 5 or lower. -/
theorem ordinal_mask (io : IoBits) (hio : io.EPSIZE0 ≤ 5) (c : Nat) (hc : c ≤ 5) :
    ordinal io ((c <<< io.EPSIZE0) % 256) = c := by
  unfold ordinal
  generalize io.EPSIZE0 = e at hio
  interval_cases e <;> interval_cases c <;> rfl

/-- The device-mode encoder on a capacity of at most 256 bytes. -/
theorem Endpoint_encode_small (io : IoBits) (fuel : Nat) (hf : 13 ≤ fuel) (b : Nat)
    (hb : b ≤ 256) :
    ∃ c, Endpoint_BytesToEPSizeMask io fuel b = some ((c <<< io.EPSIZE0) % 256) ∧ c ≤ 5 ∧
      b ≤ 8 * 2 ^ c ∧ ∀ j, j < c → 8 * 2 ^ j < b := by
  obtain ⟨c, h1, _, h3, h4⟩ :=
    Endpoint_loop_spec b (by omega) 12 0 fuel rfl (by omega) (by intro j hj; omega)
  refine ⟨c, ?_, ?_, h3, h4⟩
  · simp only [Endpoint_BytesToEPSizeMask]
    have h8 : (8 : Nat) = 8 * 2 ^ 0 := by norm_num
    rw [h8, h1]
    rfl
  · by_contra hlt
    have := h4 5 (by omega)
    norm_num at this
    omega



/-- The device-mode encoder on a capacity of at most 32768 bytes. -/
theorem Endpoint_encode_mid (io : IoBits) (fuel : Nat) (hf : 13 ≤ fuel) (b : Nat)
    (hb : b ≤ 32768) :
    ∃ c, Endpoint_BytesToEPSizeMask io fuel b = some ((c <<< io.EPSIZE0) % 256) ∧ c ≤ 12 ∧
      b ≤ 8 * 2 ^ c ∧ ∀ j, j < c → 8 * 2 ^ j < b := by
  obtain ⟨c, h1, h2, h3, h4⟩ :=
    Endpoint_loop_spec b hb 12 0 fuel rfl (by omega) (by intro j hj; omega)
  refine ⟨c, ?_, h2, h3, h4⟩
  simp only [Endpoint_BytesToEPSizeMask]
  have h8 : (8 : Nat) = 8 * 2 ^ 0 := by norm_num
  rw [h8, h1]
  rfl

/-- The host-mode encoder on any capacity. -/
theorem Pipe_encode (io : IoBits) (fuel : Nat) (hf : 6 ≤ fuel) (b : Nat) :
    ∃ c, Pipe_BytesToEPSizeMask io fuel b = some ((c <<< io.EPSIZE0) % 256) ∧ c ≤ 5 ∧
      (b ≤ 8 * 2 ^ c ∨ c = 5) ∧ ∀ j, j < c → 8 * 2 ^ j < b := by
  obtain ⟨c, h1, h2, h3, h4⟩ :=
    Pipe_loop_spec b 5 0 fuel rfl (by omega) (by intro j hj; omega)
  refine ⟨c, ?_, h2, h3, h4⟩
  simp only [Pipe_BytesToEPSizeMask]
  have h8 : (8 : Nat) = 8 * 2 ^ 0 := by norm_num
  rw [h8, h1]
  rfl

/-- The device-mode encoder returns class `k` on every capacity that `k` is the
smallest class for, up to class 12. -/
theorem Endpoint_encode_eq (io : IoBits) (fuel : Nat) (hf : 13 ≤ fuel) (b k : Nat)
    (hk : k ≤ 12) (hle : b ≤ 8 * 2 ^ k) (hgt : ∀ j, j < k → 8 * 2 ^ j < b) :
    Endpoint_BytesToEPSizeMask io fuel b = some ((k <<< io.EPSIZE0) % 256) := by
  have hb : b ≤ 32768 := by
    have : 2 ^ k ≤ 2 ^ 12 := Nat.pow_le_pow_right (by norm_num) hk
    omega
  obtain ⟨c, h1, _, h3, h4⟩ := Endpoint_encode_mid io fuel hf b hb
  have hck : c = k := by
    rcases Nat.lt_trichotomy c k with h | h | h
    · have := hgt c h
      omega
    · exact h
    · have := h4 k h
      omega
  rw [h1, hck]

/-- The device-mode loop never stops from a `CheckBytes` of zero. -/
theorem Endpoint_loop_zero (Bytes : Nat) (h : 0 < Bytes) :
    ∀ (fuel m : Nat), Endpoint_BytesToEPSizeMask_loop Bytes fuel m 0 = none := by
  intro fuel
  induction fuel with
  | zero => intro m; rfl
  | succ f ih =>
    intro m
    rw [Endpoint_BytesToEPSizeMask_loop, if_pos h]
    exact ih _

/-- The device-mode loop never stops on a capacity above 32768: `CheckBytes`
runs through the powers of two up to 32768, wraps to zero and stays there. -/
theorem Endpoint_loop_diverges (Bytes : Nat) (h : 32768 < Bytes) :
    ∀ (fuel m k : Nat), k ≤ 15 → Endpoint_BytesToEPSizeMask_loop Bytes fuel m (2 ^ k) = none := by
  intro fuel
  induction fuel with
  | zero => intro m k _; rfl
  | succ f ih =>
    intro m k hk
    have hlt : 2 ^ k < Bytes := by
      have : 2 ^ k ≤ 2 ^ 15 := Nat.pow_le_pow_right (by norm_num) hk
      omega
    rw [Endpoint_BytesToEPSizeMask_loop, if_pos hlt]
    rcases Nat.lt_or_ge k 15 with h15 | h15
    · have e : (2 ^ k <<< 1) % 65536 = 2 ^ (k + 1) := by
        have : 2 ^ k ≤ 2 ^ 14 := Nat.pow_le_pow_right (by norm_num) (by omega)
        rw [Nat.shiftLeft_eq, pow_succ]
        omega
      rw [e]
      exact ih _ (k + 1) (by omega)
    · have e : k = 15 := by omega
      subst e
      exact Endpoint_loop_zero Bytes (by omega) f _

/-- A class mask at a size field that starts at bit 4 or lower is monotone in
the class, up to class 12. -/
theorem mask_mono (io : IoBits) (hio : io.EPSIZE0 ≤ 4) (c1 c2 : Nat) (h12 : c1 ≤ c2)
    (h2 : c2 ≤ 12) : (c1 <<< io.EPSIZE0) % 256 ≤ (c2 <<< io.EPSIZE0) % 256 := by
  generalize io.EPSIZE0 = e at hio
  interval_cases e <;> simp only [Nat.shiftLeft_eq] <;> omega

/-! ## Lemmas on the selector and on the configuration bytes -/

theorem mask_low_three (i : Nat) (h : i < 8) : (i % 256) &&& 7 = i := by
  interval_cases i <;> rfl

/-- The byte for `UECFG0X`: with the direction bit below the two-bit type field
and the type field inside the byte, nothing is truncated and both fields read
back. -/
theorem cfg0_fields : ∀ t, t < 7 → ∀ d, d < t → ∀ ty, ty < 4 → ∀ dir, dir < 2 →
    ((ty <<< t) ||| (dir <<< d)) < 256 ∧
    (((ty <<< t) ||| (dir <<< d)) &&& (3 <<< t)) >>> t = ty ∧
    ((ty <<< t) ||| (dir <<< d)) &&& (1 <<< d) = dir <<< d := by
  decide

set_option synthInstance.maxSize 4096 in
set_option synthInstance.maxHeartbeats 400000 in
/-- The byte for `UECFG1X`: with the allocation bit below the two-bit bank
field, the bank field below the three-bit size field and the size field starting
at bit 5 or lower, nothing is truncated and the three fields read back. -/
theorem cfg1_fields : ∀ e, e < 6 → ∀ k, k < e → ∀ a, a < k → ∀ bk, bk < 2 →
    ∀ c, c < 6 → k + 2 ≤ e →
    (((1 <<< a) ||| (bk <<< k)) ||| ((c <<< e) % 256)) < 256 ∧
    (((1 <<< a) ||| (bk <<< k)) ||| ((c <<< e) % 256)) &&& (1 <<< a) = 1 <<< a ∧
    (((1 <<< a) ||| (bk <<< k)) ||| ((c <<< e) % 256)) &&& (3 <<< k) = bk <<< k ∧
    (((1 <<< a) ||| (bk <<< k)) ||| ((c <<< e) % 256)) &&& (7 <<< e) = (c <<< e) % 256 := by
  decide

/-! ## Lemmas on register bits -/

theorem set_same (x k : Nat) (hk : k ≤ 7) :
    ((x ||| (1 <<< k)) % 256) &&& (1 <<< k) = 1 <<< k := by
  apply Nat.eq_of_testBit_eq
  intro i
  have h256 : (256 : Nat) = 2 ^ 8 := by norm_num
  rw [h256]
  simp only [Nat.testBit_and, Nat.testBit_mod_two_pow, Nat.testBit_or, Nat.one_shiftLeft,
    Nat.testBit_two_pow]
  by_cases h : k = i
  · subst h
    have : k < 8 := by omega
    simp [this]
  · simp [h]

theorem set_other (x j k : Nat) (hk : k ≤ 7) (hjk : j ≠ k) :
    ((x ||| (1 <<< j)) % 256) &&& (1 <<< k) = x &&& (1 <<< k) := by
  apply Nat.eq_of_testBit_eq
  intro i
  have h256 : (256 : Nat) = 2 ^ 8 := by norm_num
  rw [h256]
  simp only [Nat.testBit_and, Nat.testBit_mod_two_pow, Nat.testBit_or, Nat.one_shiftLeft,
    Nat.testBit_two_pow]
  by_cases h : k = i
  · subst h
    have : k < 8 := by omega
    simp [this, hjk]
  · simp [h]

theorem clear_same (x k : Nat) : ((andNot x (1 <<< k)) % 256) &&& (1 <<< k) = 0 := by
  apply Nat.eq_of_testBit_eq
  intro i
  have h256 : (256 : Nat) = 2 ^ 8 := by norm_num
  rw [h256]
  simp only [andNot, Nat.testBit_and, Nat.testBit_mod_two_pow, Nat.testBit_xor,
    Nat.one_shiftLeft, Nat.testBit_two_pow, Nat.zero_testBit]
  by_cases h : k = i
  · subst h
    simp
  · simp [h]

theorem clear_other (x j k : Nat) (hk : k ≤ 7) (hjk : j ≠ k) :
    ((andNot x (1 <<< j)) % 256) &&& (1 <<< k) = x &&& (1 <<< k) := by
  apply Nat.eq_of_testBit_eq
  intro i
  have h256 : (256 : Nat) = 2 ^ 8 := by norm_num
  rw [h256]
  simp only [andNot, Nat.testBit_and, Nat.testBit_mod_two_pow, Nat.testBit_xor,
    Nat.one_shiftLeft, Nat.testBit_two_pow]
  by_cases h : k = i
  · subst h
    have : k < 8 := by omega
    simp [this, hjk]
  · simp [h]

theorem one_shiftLeft_ne_zero (k : Nat) : 1 <<< k ≠ 0 := by
  rw [Nat.one_shiftLeft]
  positivity

/-- Setting any bit of a register byte never clears bit `k`. -/
theorem set_keeps (x j k : Nat) (hk : k ≤ 7) (h : x &&& (1 <<< k) ≠ 0) :
    ((x ||| (1 <<< j)) % 256) &&& (1 <<< k) ≠ 0 := by
  by_cases hjk : j = k
  · subst hjk
    rw [set_same x j hk]
    exact one_shiftLeft_ne_zero j
  · rw [set_other x j k hk hjk]
    exact h

@[simp] theorem cur_setCur (s : DeviceRegs) (r : EPRegs) : (s.setCur r).cur = r := by
  simp [DeviceRegs.cur, DeviceRegs.setCur]

@[simp] theorem UENUM_setCur (s : DeviceRegs) (r : EPRegs) : (s.setCur r).UENUM = s.UENUM := rfl

/-! ## Lemmas on the FIFO primitives -/

theorem and_ff (x : Nat) : x &&& 0xFF = x % 256 := by
  have h := Nat.and_pow_two_sub_one_eq_mod x 8
  norm_num at h
  exact h

theorem Write_Word_LE_bytes (x : Nat) (fifo : List Nat) :
    Endpoint_Write_Word_LE x fifo = fifo ++ [x % 256, x / 256 % 256] := by
  simp [Endpoint_Write_Word_LE, dataWrite, and_ff, Nat.shiftRight_eq_div_pow]

theorem Write_Word_BE_bytes (x : Nat) (fifo : List Nat) :
    Endpoint_Write_Word_BE x fifo = fifo ++ [x / 256 % 256, x % 256] := by
  simp [Endpoint_Write_Word_BE, dataWrite, and_ff, Nat.shiftRight_eq_div_pow]

theorem Write_DWord_LE_bytes (x : Nat) (fifo : List Nat) :
    Endpoint_Write_DWord_LE x fifo =
      fifo ++ [x % 256, (x >>> 8) % 256, (x >>> 16) % 256, (x >>> 24) % 256] := by
  simp [Endpoint_Write_DWord_LE, dataWrite, and_ff]

theorem Write_DWord_BE_bytes (x : Nat) (fifo : List Nat) :
    Endpoint_Write_DWord_BE x fifo =
      fifo ++ [(x >>> 24) % 256, (x >>> 16) % 256, (x >>> 8) % 256, x % 256] := by
  simp [Endpoint_Write_DWord_BE, dataWrite, and_ff]

theorem Read_Word_LE_cons (b0 b1 : Nat) (rest : List Nat) :
    Endpoint_Read_Word_LE (b0 :: b1 :: rest) = some (b0 % 256 + 256 * (b1 % 256), rest) := rfl

theorem Read_Word_BE_cons (b0 b1 : Nat) (rest : List Nat) :
    Endpoint_Read_Word_BE (b0 :: b1 :: rest) = some (b1 % 256 + 256 * (b0 % 256), rest) := rfl

theorem Read_DWord_LE_cons (b0 b1 b2 b3 : Nat) (rest : List Nat) :
    Endpoint_Read_DWord_LE (b0 :: b1 :: b2 :: b3 :: rest) =
      some (b0 % 256 + 2 ^ 8 * (b1 % 256) + 2 ^ 16 * (b2 % 256) + 2 ^ 24 * (b3 % 256), rest) :=
  rfl

theorem Read_DWord_BE_cons (b0 b1 b2 b3 : Nat) (rest : List Nat) :
    Endpoint_Read_DWord_BE (b0 :: b1 :: b2 :: b3 :: rest) =
      some (b3 % 256 + 2 ^ 8 * (b2 % 256) + 2 ^ 16 * (b1 % 256) + 2 ^ 24 * (b0 % 256), rest) :=
  rfl

/-- The host-mode primitives have the bodies of the device-mode ones, over
`UPDATX`. -/
theorem Pipe_primitives_eq :
    Pipe_Read_Word_LE = Endpoint_Read_Word_LE ∧ Pipe_Read_Word_BE = Endpoint_Read_Word_BE ∧
    Pipe_Write_Word_LE = Endpoint_Write_Word_LE ∧ Pipe_Write_Word_BE = Endpoint_Write_Word_BE ∧
    Pipe_Read_DWord_LE = Endpoint_Read_DWord_LE ∧ Pipe_Read_DWord_BE = Endpoint_Read_DWord_BE ∧
    Pipe_Write_DWord_LE = Endpoint_Write_DWord_LE ∧
    Pipe_Write_DWord_BE = Endpoint_Write_DWord_BE :=
  ⟨rfl, rfl, rfl, rfl, rfl, rfl, rfl, rfl⟩

theorem Word_LE_roundtrip (x : Nat) (hx : x < 2 ^ 16) :
    Endpoint_Read_Word_LE (Endpoint_Write_Word_LE x []) = some (x, []) := by
  rw [Write_Word_LE_bytes, List.nil_append, Read_Word_LE_cons]
  have : x % 256 % 256 + 256 * (x / 256 % 256 % 256) = x := by omega
  rw [this]

theorem Word_BE_roundtrip (x : Nat) (hx : x < 2 ^ 16) :
    Endpoint_Read_Word_BE (Endpoint_Write_Word_BE x []) = some (x, []) := by
  rw [Write_Word_BE_bytes, List.nil_append, Read_Word_BE_cons]
  have : x % 256 % 256 + 256 * (x / 256 % 256 % 256) = x := by omega
  rw [this]

theorem DWord_LE_roundtrip (x : Nat) (hx : x < 2 ^ 32) :
    Endpoint_Read_DWord_LE (Endpoint_Write_DWord_LE x []) = some (x, []) := by
  rw [Write_DWord_LE_bytes, List.nil_append, Read_DWord_LE_cons]
  simp only [Nat.shiftRight_eq_div_pow]
  have : x % 256 % 256 + 2 ^ 8 * (x / 2 ^ 8 % 256 % 256) + 2 ^ 16 * (x / 2 ^ 16 % 256 % 256) +
      2 ^ 24 * (x / 2 ^ 24 % 256 % 256) = x := by
    norm_num at hx ⊢
    omega
  rw [this]

theorem DWord_BE_roundtrip (x : Nat) (hx : x < 2 ^ 32) :
    Endpoint_Read_DWord_BE (Endpoint_Write_DWord_BE x []) = some (x, []) := by
  rw [Write_DWord_BE_bytes, List.nil_append, Read_DWord_BE_cons]
  simp only [Nat.shiftRight_eq_div_pow]
  have : x % 256 % 256 + 2 ^ 8 * (x / 2 ^ 8 % 256 % 256) + 2 ^ 16 * (x / 2 ^ 16 % 256 % 256) +
      2 ^ 24 * (x / 2 ^ 24 % 256 % 256) = x := by
    norm_num at hx ⊢
    omega
  rw [this]

/-! ## Lemmas on the operations of the selected endpoint -/

theorem ClearIN_UECONX (io : IoBits) (b : Build) (s : DeviceRegs) :
    (Endpoint_ClearIN io b s).cur.UECONX = s.cur.UECONX := by
  unfold Endpoint_ClearIN
  split <;> simp

theorem ClearOUT_UECONX (io : IoBits) (b : Build) (s : DeviceRegs) :
    (Endpoint_ClearOUT io b s).cur.UECONX = s.cur.UECONX := by
  unfold Endpoint_ClearOUT
  split <;> simp

/-- No operation other than `Endpoint_ClearStall` clears a set `STALLRQ` bit of
the selected endpoint. -/
theorem step_keeps_stall (io : IoBits) (b : Build) (h1 : io.STALLRQ ≤ 7)
    (h2 : io.EPEN ≠ io.STALLRQ) (op : EndpointOp) (s t : DeviceRegs)
    (hs : op.step io b s = some t) (h : s.cur.UECONX &&& (1 <<< io.STALLRQ) ≠ 0) :
    t.cur.UECONX &&& (1 <<< io.STALLRQ) ≠ 0 := by
  cases op <;>
    simp only [EndpointOp.step, Option.some.injEq, DeviceRegs.fifoRead, DeviceRegs.fifoDiscard,
      DeviceRegs.fifoWrite, Option.map_eq_some'] at hs
  case EnableEndpoint =>
    subst hs
    simp only [Endpoint_EnableEndpoint, cur_setCur]
    exact set_keeps _ _ _ h1 h
  case DisableEndpoint =>
    subst hs
    simp only [Endpoint_DisableEndpoint, cur_setCur]
    rw [clear_other _ _ _ h1 h2]
    exact h
  case ResetDataToggle =>
    subst hs
    simp only [Endpoint_ResetDataToggle, cur_setCur]
    exact set_keeps _ _ _ h1 h
  case StallTransaction =>
    subst hs
    simp only [Endpoint_StallTransaction, cur_setCur]
    exact set_keeps _ _ _ h1 h
  case SetEndpointDirection d =>
    subst hs
    simpa [Endpoint_SetEndpointDirection] using h
  case ClearSETUP =>
    subst hs
    simpa [Endpoint_ClearSETUP] using h
  case ClearIN =>
    subst hs
    rw [ClearIN_UECONX]
    exact h
  case ClearOUT =>
    subst hs
    rw [ClearOUT_UECONX]
    exact h
  all_goals first
    | (subst hs; simpa using h)
    | (obtain ⟨r, _, rfl⟩ := hs; simpa using h)

/-- An operation that does not read the bank always runs. -/
theorem step_runs (io : IoBits) (b : Build) (op : EndpointOp) (s : DeviceRegs)
    (h : op.reads = false) : ∃ t, op.step io b s = some t := by
  cases op <;> simp [EndpointOp.reads] at h <;> exact ⟨_, rfl⟩

/-! ## Lemmas on the configurator -/

set_option synthInstance.maxSize 4096 in
set_option synthInstance.maxHeartbeats 400000 in
/-- The size field of the byte for `UECFG1X` reads back every class up to 7. -/
theorem cfg1_size_field : ∀ e, e < 6 → ∀ k, k < e → ∀ a, a < k → ∀ bk, bk < 2 →
    ∀ c, c < 8 → k + 2 ≤ e →
    ((((((1 <<< a) ||| (bk <<< k)) ||| ((c <<< e) % 256)) % 256) % 256) >>> e) &&& 7 = c := by
  decide

/-- The device-mode encoder on a capacity of at most 1024 bytes. -/
theorem Endpoint_encode_1024 (io : IoBits) (fuel : Nat) (hf : 13 ≤ fuel) (b : Nat)
    (hb : b ≤ 1024) :
    ∃ c, Endpoint_BytesToEPSizeMask io fuel b = some ((c <<< io.EPSIZE0) % 256) ∧ c ≤ 7 ∧
      b ≤ 8 * 2 ^ c := by
  obtain ⟨c, h1, _, h3, h4⟩ := Endpoint_encode_mid io fuel hf b (by omega)
  refine ⟨c, h1, ?_, h3⟩
  by_contra hlt
  have := h4 7 (by omega)
  norm_num at this
  omega

/-- What the modelled private routine leaves behind: the status byte of the
controller, the control register of the selected endpoint untouched, and the
`CFGOK` bit as its result. -/
theorem Prv_result (io : IoBits) (b : Build) (hw : Nat → Nat → Nat → Nat)
    (n c0 c1 : Nat) (s : DeviceRegs) :
    (Endpoint_ConfigureEndpoint_Prv io b hw n c0 c1 s).2.cur.UESTA0X =
      hw ((Endpoint_SelectEndpoint b n s).UENUM % 8) (c0 % 256) (c1 % 256) % 256 ∧
    (Endpoint_ConfigureEndpoint_Prv io b hw n c0 c1 s).2.cur.UECONX =
      (Endpoint_SelectEndpoint b n s).cur.UECONX ∧
    (Endpoint_ConfigureEndpoint_Prv io b hw n c0 c1 s).1 =
      Endpoint_IsConfigured io (Endpoint_ConfigureEndpoint_Prv io b hw n c0 c1 s).2 := by
  simp [Endpoint_ConfigureEndpoint_Prv]

/-! ## Lemmas on register fields -/

theorem testBit_of_lt_256 (m i : Nat) (hm : m < 256) (h : m.testBit i = true) : i < 8 := by
  by_contra hge
  have h1 : 2 ^ 8 ≤ 2 ^ i := Nat.pow_le_pow_right (by norm_num) (by omega)
  have h2 : m < 2 ^ i := by omega
  rw [Nat.testBit_lt_two_pow h2] at h
  exact Bool.false_ne_true h

theorem testBit_of_and_eq (t m i : Nat) (ht : t &&& m = t) (h : t.testBit i = true) :
    m.testBit i = true := by
  have := congrArg (fun v => v.testBit i) ht
  simp only [Nat.testBit_and, h, Bool.true_and] at this
  exact this

theorem testBit_of_and_zero (n m i : Nat) (h0 : n &&& m = 0) (h : n.testBit i = true) :
    m.testBit i = false := by
  have := congrArg (fun v => v.testBit i) h0
  simp only [Nat.testBit_and, h, Bool.true_and, Nat.zero_testBit] at this
  exact this

/-- Writing the value `t` into the field `m` of a register byte: the field
reads back `t`. -/
theorem write_field_same (x m t : Nat) (hm : m < 256) (ht : t &&& m = t) :
    (((andNot x m) ||| t) % 256) &&& m = t := by
  have h256 : (256 : Nat) = 2 ^ 8 := by norm_num
  apply Nat.eq_of_testBit_eq
  intro i
  rw [h256]
  simp only [andNot, Nat.testBit_and, Nat.testBit_mod_two_pow, Nat.testBit_xor, Nat.testBit_or]
  cases hmi : m.testBit i
  · cases hti : t.testBit i
    · simp
    · have := testBit_of_and_eq t m i ht hti
      rw [hmi] at this
      exact absurd this (by simp)
  · have h8 : i < 8 := testBit_of_lt_256 m i hm hmi
    simp [h8]

/-- Writing the value `t` into the field `m` of a register byte: bits `n` away
from the field and from the value read back as before. -/
theorem write_field_other (x m t n : Nat) (hn : n < 256) (hnm : n &&& m = 0)
    (hnt : n &&& t = 0) : (((andNot x m) ||| t) % 256) &&& n = x &&& n := by
  have h256 : (256 : Nat) = 2 ^ 8 := by norm_num
  apply Nat.eq_of_testBit_eq
  intro i
  rw [h256]
  simp only [andNot, Nat.testBit_and, Nat.testBit_mod_two_pow, Nat.testBit_xor, Nat.testBit_or]
  cases hni : n.testBit i
  · simp
  · have h8 : i < 8 := testBit_of_lt_256 n i hn hni
    have h1 := testBit_of_and_zero n m i hnm hni
    have h2 := testBit_of_and_zero n t i hnt hni
    simp [h8, h1, h2]

/-- Clearing the bits `m` of a register byte: any part `n` of `m` reads zero. -/
theorem clear_mask_sub (x m n : Nat) (hnm : n &&& m = n) : ((andNot x m) % 256) &&& n = 0 := by
  have h256 : (256 : Nat) = 2 ^ 8 := by norm_num
  apply Nat.eq_of_testBit_eq
  intro i
  rw [h256]
  simp only [andNot, Nat.testBit_and, Nat.testBit_mod_two_pow, Nat.testBit_xor,
    Nat.zero_testBit]
  cases hni : n.testBit i
  · simp
  · have h1 := testBit_of_and_eq n m i hnm hni
    simp [h1]

/-- Clearing the bits `m` of a register byte: bits `n` away from `m` read back as
before. -/
theorem clear_mask_other (x m n : Nat) (hn : n < 256) (hnm : n &&& m = 0) :
    ((andNot x m) % 256) &&& n = x &&& n := by
  have h256 : (256 : Nat) = 2 ^ 8 := by norm_num
  apply Nat.eq_of_testBit_eq
  intro i
  rw [h256]
  simp only [andNot, Nat.testBit_and, Nat.testBit_mod_two_pow, Nat.testBit_xor]
  cases hni : n.testBit i
  · simp
  · have h8 : i < 8 := testBit_of_lt_256 n i hn hni
    have h1 := testBit_of_and_zero n m i hnm hni
    simp [h8, h1]

/-- Clearing two bits of a register byte, bit by bit. -/
theorem clear_two_bits (x j1 j2 k : Nat) (hk : k < 8) :
    ((andNot x ((1 <<< j1) ||| (1 <<< j2))) % 256).testBit k =
      (x.testBit k && decide (k ≠ j1 ∧ k ≠ j2)) := by
  have h256 : (256 : Nat) = 2 ^ 8 := by norm_num
  simp only [andNot, h256, Nat.testBit_and, Nat.testBit_mod_two_pow, Nat.testBit_xor,
    Nat.testBit_or, Nat.one_shiftLeft, Nat.testBit_two_pow]
  by_cases h1 : j1 = k <;> by_cases h2 : j2 = k <;> simp [h1, h2, hk, eq_comm]

theorem bit_lt_256 (k : Nat) (hk : k ≤ 7) : 1 <<< k < 256 := by
  interval_cases k <;> decide

theorem bit_and_bit (k j : Nat) (h : k ≠ j) : (1 <<< k) &&& (1 <<< j) = 0 := by
  apply Nat.eq_of_testBit_eq
  intro i
  simp only [Nat.testBit_and, Nat.one_shiftLeft, Nat.testBit_two_pow, Nat.zero_testBit]
  by_cases hi : k = i
  · subst hi
    simp [Ne.symm h]
  · simp [hi]

theorem bit_and_bits (k j f : Nat) (h1 : k ≠ j) (h2 : k ≠ f) :
    (1 <<< k) &&& ((1 <<< j) ||| (1 <<< f)) = 0 := by
  apply Nat.eq_of_testBit_eq
  intro i
  simp only [Nat.testBit_and, Nat.testBit_or, Nat.one_shiftLeft, Nat.testBit_two_pow,
    Nat.zero_testBit]
  by_cases hi : k = i
  · subst hi
    simp [Ne.symm h1, Ne.symm h2]
  · simp [hi]

theorem bit_sub_bits_left (j f : Nat) : (1 <<< j) &&& ((1 <<< j) ||| (1 <<< f)) = 1 <<< j := by
  apply Nat.eq_of_testBit_eq
  intro i
  simp only [Nat.testBit_and, Nat.testBit_or, Nat.one_shiftLeft, Nat.testBit_two_pow]
  by_cases hi : j = i <;> simp [hi]

theorem shiftRight_and_15 (x e : Nat) : (x >>> e) &&& 15 = (x &&& (15 <<< e)) >>> e := by
  apply Nat.eq_of_testBit_eq
  intro i
  simp [Nat.testBit_and, Nat.testBit_shiftRight, Nat.testBit_shiftLeft]

theorem mask_low_three_mod (i : Nat) : (i % 256) &&& 7 = i % 8 := by
  have h := Nat.and_pow_two_sub_one_eq_mod (i % 256) 3
  norm_num at h
  exact h

/-- The error flags that `Pipe_GetErrorFlags` returns, bit by bit. -/
theorem GetErrorFlags_testBit (a b i : Nat) :
    (((a &&& ((1 <<< 4) ||| (1 <<< 3) ||| (1 <<< 2) ||| (1 <<< 1) ||| (1 <<< 0))) |||
        (b &&& ((1 <<< 6) ||| (1 <<< 5)))) % 256).testBit i =
      ((a.testBit i && decide (i < 5)) || (b.testBit i && decide (i = 5 ∨ i = 6))) := by
  have h256 : (256 : Nat) = 2 ^ 8 := by norm_num
  simp only [h256, Nat.testBit_and, Nat.testBit_mod_two_pow, Nat.testBit_or, Nat.one_shiftLeft,
    Nat.testBit_two_pow]
  rcases Nat.lt_or_ge i 8 with h | h
  · interval_cases i <;> simp
  · have h1 : ¬ i < 8 := by omega
    have h2 : ¬ i < 5 := by omega
    have h3 : ¬ (i = 5 ∨ i = 6) := by omega
    simp [h1, h2, h3]

theorem and_bit_eq (r a k : Nat) (h : r.testBit k = a.testBit k) :
    r &&& (1 <<< k) = a &&& (1 <<< k) := by
  apply Nat.eq_of_testBit_eq
  intro i
  simp only [Nat.testBit_and, Nat.one_shiftLeft, Nat.testBit_two_pow]
  by_cases hi : k = i
  · subst hi
    simp [h]
  · simp [hi]

theorem and_bit_zero (r k : Nat) (h : r.testBit k = false) : r &&& (1 <<< k) = 0 := by
  apply Nat.eq_of_testBit_eq
  intro i
  simp only [Nat.testBit_and, Nat.one_shiftLeft, Nat.testBit_two_pow, Nat.zero_testBit]
  by_cases hi : k = i
  · subst hi
    simp [h]
  · simp [hi]

/-- The value of `Pipe_GetErrorFlags`, bit by bit: bits 0 to 4 are those of
`UPERRX`, bits 5 and 6 those of `UPSTAX`, no other bit is set. -/
theorem Pipe_GetErrorFlags_testBit (p : PipeRegs) (i : Nat) :
    (Pipe_GetErrorFlags p).testBit i =
      ((p.UPERRX.testBit i && decide (i < 5)) || (p.UPSTAX.testBit i && decide (i = 5 ∨ i = 6))) :=
  GetErrorFlags_testBit p.UPERRX p.UPSTAX i

theorem Pipe_GetErrorFlags_lt (p : PipeRegs) : Pipe_GetErrorFlags p < 2 ^ 7 := by
  apply Nat.lt_pow_two_of_testBit
  intro i hi
  rw [Pipe_GetErrorFlags_testBit]
  have h2 : ¬ i < 5 := by omega
  have h3 : ¬ (i = 5 ∨ i = 6) := by omega
  simp [h2, h3]

theorem overflow_underflow_testBit (i : Nat) :
    (PIPE_ERRORFLAG_OVERFLOW ||| PIPE_ERRORFLAG_UNDERFLOW).testBit i = decide (i = 5 ∨ i = 6) := by
  have h : PIPE_ERRORFLAG_OVERFLOW ||| PIPE_ERRORFLAG_UNDERFLOW = 2 ^ 6 ||| 2 ^ 5 := rfl
  rw [h, Nat.testBit_or, Nat.testBit_two_pow, Nat.testBit_two_pow]
  by_cases h5 : i = 5
  · subst h5
    rfl
  · by_cases h6 : i = 6
    · subst h6
      rfl
    · have h56 : ¬ (i = 5 ∨ i = 6) := by omega
      have e5 : ¬ (5 = i) := fun h => h5 h.symm
      have e6 : ¬ (6 = i) := fun h => h6 h.symm
      simp [h56, e5, e6]

/-! ## Lemmas on packet completion, direction and token -/

theorem ClearIN_UEINTX (io : IoBits) (b : Build) (hb : b.CONTROL_ONLY_DEVICE = false)
    (s : DeviceRegs) : (Endpoint_ClearIN io b s).cur.UEINTX =
      (andNot s.cur.UEINTX ((1 <<< io.TXINI) ||| (1 <<< io.FIFOCON))) % 256 := by
  simp [Endpoint_ClearIN, hb]

theorem ClearOUT_UEINTX (io : IoBits) (b : Build) (hb : b.CONTROL_ONLY_DEVICE = false)
    (s : DeviceRegs) : (Endpoint_ClearOUT io b s).cur.UEINTX =
      (andNot s.cur.UEINTX ((1 <<< io.RXOUTI) ||| (1 <<< io.FIFOCON))) % 256 := by
  simp [Endpoint_ClearOUT, hb]

set_option synthInstance.maxSize 4096 in
set_option synthInstance.maxHeartbeats 400000 in
/-- The token field of `UPCFG0X` and the endpoint number field below it. -/
theorem token_field_facts : ∀ P, P < 7 → ∀ c, c < 3 →
    3 <<< P < 256 ∧ (c <<< P) &&& (3 <<< P) = c <<< P ∧ c <<< P < 256 ∧
    ∀ E, E < 3 → E + 4 ≤ P →
      15 <<< E < 256 ∧ (15 <<< E) &&& (3 <<< P) = 0 ∧ (15 <<< E) &&& (c <<< P) = 0 := by
  decide

set_option synthInstance.maxSize 4096 in
set_option synthInstance.maxHeartbeats 400000 in
/-- A class of at most 7 stays inside the three-bit size field and leaves the
allocation bit and the bank field of the byte for `UECFG1X` alone. -/
theorem size_field_only : ∀ e, e < 6 → ∀ k, k < e → ∀ a, a < k → ∀ bk, bk < 2 →
    ∀ c, c < 8 → k + 2 ≤ e →
    ((c <<< e) % 256) &&& (7 <<< e) = (c <<< e) % 256 ∧
    ((c <<< e) % 256) &&& (1 <<< a) = 0 ∧
    ((c <<< e) % 256) &&& (3 <<< k) = 0 ∧
    (((1 <<< a) ||| (bk <<< k)) ||| ((c <<< e) % 256)) &&& (1 <<< a) = 1 <<< a ∧
    (((1 <<< a) ||| (bk <<< k)) ||| ((c <<< e) % 256)) &&& (3 <<< k) = bk <<< k := by
  decide

/-! ## Lemmas on the readiness wait -/

/-- The device-mode wait passes over polls at which nothing holds. -/
theorem Endpoint_wait_skip (T : Nat) (env : Nat → Poll) :
    ∀ (N fuel i : Nat), (∀ j, j < N → (env (i + j)).quiet T) →
      Endpoint_WaitUntilReady T env (fuel + N) i = Endpoint_WaitUntilReady T env fuel (i + N) := by
  intro N
  induction N with
  | zero => intro fuel i _; rfl
  | succ N ih =>
    intro fuel i hq
    obtain ⟨q1, q2, q3, q4, q5⟩ := hq 0 (by omega)
    rw [Nat.add_zero] at q1 q2 q3 q4 q5
    have hrec := ih fuel (i + 1) (fun j hj => by
      have := hq (j + 1) (by omega)
      rw [show i + (j + 1) = i + 1 + j by omega] at this
      exact this)
    rw [show fuel + (N + 1) = (fuel + N) + 1 by omega, Endpoint_WaitUntilReady]
    simp only [q1, q2, q3, q4, Bool.false_eq_true, if_false, Nat.not_le.mpr q5]
    rw [hrec, show i + 1 + N = i + (N + 1) by omega]

/-- The host-mode wait passes over polls at which nothing holds. -/
theorem Pipe_wait_skip (T : Nat) (env : Nat → Poll) :
    ∀ (N fuel i : Nat), (∀ j, j < N → (env (i + j)).pipeQuiet T) →
      Pipe_WaitUntilReady T env (fuel + N) i = Pipe_WaitUntilReady T env fuel (i + N) := by
  intro N
  induction N with
  | zero => intro fuel i _; rfl
  | succ N ih =>
    intro fuel i hq
    obtain ⟨q1, q2, q4, q5⟩ := hq 0 (by omega)
    rw [Nat.add_zero] at q1 q2 q4 q5
    have hrec := ih fuel (i + 1) (fun j hj => by
      have := hq (j + 1) (by omega)
      rw [show i + (j + 1) = i + 1 + j by omega] at this
      exact this)
    rw [show fuel + (N + 1) = (fuel + N) + 1 by omega, Pipe_WaitUntilReady]
    simp only [q1, q2, q4, Bool.false_eq_true, if_false, Nat.not_le.mpr q5]
    rw [hrec, show i + 1 + N = i + (N + 1) by omega]

/-- With polls `0 .. N-1` quiet and more than `N` polls of fuel, the device-mode
wait is decided by poll `N`. -/
theorem Endpoint_wait_at (T : Nat) (env : Nat → Poll) (N fuel : Nat) (hf : N < fuel)
    (hq : ∀ j, j < N → (env j).quiet T) :
    Endpoint_WaitUntilReady T env fuel 0 =
      if (env N).stalled then some ENDPOINT_READYWAIT_EndpointStalled
      else if (env N).disconnected then some ENDPOINT_READYWAIT_DeviceDisconnected
      else if (env N).suspended then some ENDPOINT_READYWAIT_BusSuspended
      else if (env N).ready then some ENDPOINT_READYWAIT_NoError
      else if T ≤ (env N).elapsedMs then some ENDPOINT_READYWAIT_Timeout
      else Endpoint_WaitUntilReady T env (fuel - N - 1) (N + 1) := by
  have h := Endpoint_wait_skip T env N (fuel - N) 0 (fun j hj => by
    rw [Nat.zero_add]
    exact hq j hj)
  rw [show fuel - N + N = fuel by omega, Nat.zero_add] at h
  obtain ⟨f, hfN⟩ : ∃ f, fuel - N = f + 1 := ⟨fuel - N - 1, by omega⟩
  have e1 : fuel - N - 1 = f := by omega
  rw [h, e1, hfN, Endpoint_WaitUntilReady]

/-- With polls `0 .. N-1` quiet and more than `N` polls of fuel, the host-mode
wait is decided by poll `N`. -/
theorem Pipe_wait_at (T : Nat) (env : Nat → Poll) (N fuel : Nat) (hf : N < fuel)
    (hq : ∀ j, j < N → (env j).pipeQuiet T) :
    Pipe_WaitUntilReady T env fuel 0 =
      if (env N).stalled then some PIPE_READYWAIT_PipeStalled
      else if (env N).disconnected then some PIPE_READYWAIT_DeviceDisconnected
      else if (env N).ready then some PIPE_READYWAIT_NoError
      else if T ≤ (env N).elapsedMs then some PIPE_READYWAIT_Timeout
      else Pipe_WaitUntilReady T env (fuel - N - 1) (N + 1) := by
  have h := Pipe_wait_skip T env N (fuel - N) 0 (fun j hj => by
    rw [Nat.zero_add]
    exact hq j hj)
  rw [show fuel - N + N = fuel by omega, Nat.zero_add] at h
  obtain ⟨f, hfN⟩ : ∃ f, fuel - N = f + 1 := ⟨fuel - N - 1, by omega⟩
  have e1 : fuel - N - 1 = f := by omega
  rw [h, e1, hfN, Pipe_WaitUntilReady]

/-! ## The size encoders: theorems -/

/-- C1: for every requested capacity `b ≤ 256`, the ordinal returned by
`Endpoint_BytesToEPSizeMask(b)` is the smallest `c` with `8 * 2^c ≥ b`; it is 0
for `b = 8`, 1 for `b = 9` and 3 for `b = 64`. (The size field starts at bit 5
or lower, so that the mask is not truncated by the `uint8_t` return type.) -/
theorem Endpoint_BytesToEPSizeMask_smallest_class (io : IoBits) (hio : io.EPSIZE0 ≤ 5)
    (fuel : Nat) (hf : 13 ≤ fuel) (b : Nat) (hb : b ≤ 256) :
    (∃ r, Endpoint_BytesToEPSizeMask io fuel b = some r ∧ b ≤ 8 * 2 ^ ordinal io r ∧
      ∀ c, b ≤ 8 * 2 ^ c → ordinal io r ≤ c) ∧
    (Endpoint_BytesToEPSizeMask io fuel 8).map (ordinal io) = some 0 ∧
    (Endpoint_BytesToEPSizeMask io fuel 9).map (ordinal io) = some 1 ∧
    (Endpoint_BytesToEPSizeMask io fuel 64).map (ordinal io) = some 3 := by
  refine ⟨?_, ?_, ?_, ?_⟩
  · obtain ⟨c, h1, h2, h3, h4⟩ := Endpoint_encode_small io fuel hf b hb
    refine ⟨_, h1, ?_, ?_⟩
    · rw [ordinal_mask io hio c h2]
      exact h3
    · intro k hk
      rw [ordinal_mask io hio c h2]
      by_contra hlt
      have := h4 k (by omega)
      omega
  · rw [Endpoint_encode_eq io fuel hf 8 0 (by omega) (by norm_num) (by intro j hj; omega)]
    simp only [Option.map_some']
    rw [ordinal_mask io hio 0 (by omega)]
  · rw [Endpoint_encode_eq io fuel hf 9 1 (by omega) (by norm_num)
      (by intro j hj; interval_cases j; norm_num)]
    simp only [Option.map_some']
    rw [ordinal_mask io hio 1 (by omega)]
  · rw [Endpoint_encode_eq io fuel hf 64 3 (by omega) (by norm_num)
      (by intro j hj; interval_cases j <;> norm_num)]
    simp only [Option.map_some']
    rw [ordinal_mask io hio 3 (by omega)]

/-- Witness of C1: the AVR size field, fuel 13, capacity 200 (class 5). -/
theorem Endpoint_BytesToEPSizeMask_smallest_class_witness :
    avrBits.EPSIZE0 ≤ 5 ∧ 13 ≤ 13 ∧ 200 ≤ 256 ∧
    ((∃ r, Endpoint_BytesToEPSizeMask avrBits 13 200 = some r ∧
        200 ≤ 8 * 2 ^ ordinal avrBits r ∧ ∀ c, 200 ≤ 8 * 2 ^ c → ordinal avrBits r ≤ c) ∧
      (Endpoint_BytesToEPSizeMask avrBits 13 8).map (ordinal avrBits) = some 0 ∧
      (Endpoint_BytesToEPSizeMask avrBits 13 9).map (ordinal avrBits) = some 1 ∧
      (Endpoint_BytesToEPSizeMask avrBits 13 64).map (ordinal avrBits) = some 3) :=
  ⟨by decide, by decide, by decide,
    Endpoint_BytesToEPSizeMask_smallest_class avrBits (by decide) 13 (by decide) 200 (by decide)⟩

/-- C2: both size encoders are monotonically non-decreasing in the requested
capacity: `Pipe_BytesToEPSizeMask` on all 16-bit capacities and
`Endpoint_BytesToEPSizeMask` on all capacities up to 32768. (The size field
starts at bit 4 or lower, so that no mask is truncated.) -/
theorem BytesToEPSizeMask_monotone (io : IoBits) (hio : io.EPSIZE0 ≤ 4)
    (fuel : Nat) (hf : 13 ≤ fuel) (b1 b2 : Nat) (h12 : b1 ≤ b2) :
    (b2 < 65536 → ∃ r1 r2, Pipe_BytesToEPSizeMask io fuel b1 = some r1 ∧
      Pipe_BytesToEPSizeMask io fuel b2 = some r2 ∧ r1 ≤ r2) ∧
    (b2 ≤ 32768 → ∃ r1 r2, Endpoint_BytesToEPSizeMask io fuel b1 = some r1 ∧
      Endpoint_BytesToEPSizeMask io fuel b2 = some r2 ∧ r1 ≤ r2) := by
  constructor
  · intro _
    obtain ⟨c1, e1, u1, _, m1⟩ := Pipe_encode io fuel (by omega) b1
    obtain ⟨c2, e2, u2, l2, _⟩ := Pipe_encode io fuel (by omega) b2
    refine ⟨_, _, e1, e2, mask_mono io hio c1 c2 ?_ (by omega)⟩
    by_contra hlt
    have hb := m1 c2 (by omega)
    rcases l2 with h | h
    · omega
    · omega
  · intro hb2
    obtain ⟨c1, e1, _, _, m1⟩ := Endpoint_encode_mid io fuel hf b1 (by omega)
    obtain ⟨c2, e2, u2, l2, _⟩ := Endpoint_encode_mid io fuel hf b2 hb2
    refine ⟨_, _, e1, e2, mask_mono io hio c1 c2 ?_ u2⟩
    by_contra hlt
    have hb := m1 c2 (by omega)
    omega

/-- Witness of C2: the AVR size field, fuel 13, capacities 100 and 300. -/
theorem BytesToEPSizeMask_monotone_witness :
    avrBits.EPSIZE0 ≤ 4 ∧ 13 ≤ 13 ∧ 100 ≤ 300 ∧
    (∃ r1 r2, Pipe_BytesToEPSizeMask avrBits 13 100 = some r1 ∧
      Pipe_BytesToEPSizeMask avrBits 13 300 = some r2 ∧ r1 ≤ r2) ∧
    (∃ r1 r2, Endpoint_BytesToEPSizeMask avrBits 13 100 = some r1 ∧
      Endpoint_BytesToEPSizeMask avrBits 13 300 = some r2 ∧ r1 ≤ r2) :=
  ⟨by decide, by decide, by decide,
    (BytesToEPSizeMask_monotone avrBits (by decide) 13 (by decide) 100 300 (by decide)).1
      (by decide),
    (BytesToEPSizeMask_monotone avrBits (by decide) 13 (by decide) 100 300 (by decide)).2
      (by decide)⟩

/-- C3: `Endpoint_BytesToEPSizeMask` does not return on the 16-bit capacities
32769 and 65535, whatever the fuel: `CheckBytes` reaches 32768, is doubled to
zero modulo `2^16`, and `0 < Bytes` holds for ever. -/
theorem Endpoint_BytesToEPSizeMask_no_return (io : IoBits) (fuel : Nat) :
    Endpoint_BytesToEPSizeMask io fuel 32769 = none ∧
    Endpoint_BytesToEPSizeMask io fuel 65535 = none := by
  have h8 : (8 : Nat) = 2 ^ 3 := by norm_num
  constructor
  · simp only [Endpoint_BytesToEPSizeMask]
    rw [h8, Endpoint_loop_diverges 32769 (by omega) fuel 0 3 (by omega)]
    rfl
  · simp only [Endpoint_BytesToEPSizeMask]
    rw [h8, Endpoint_loop_diverges 65535 (by omega) fuel 0 3 (by omega)]
    rfl

/-- C4: on the capacity 257 `Endpoint_BytesToEPSizeMask` returns the mask of
ordinal 6, above the largest class 5 (256 bytes), with any fuel of 13 or more;
`Pipe_BytesToEPSizeMask` returns the mask of ordinal 5 on the same capacity. -/
theorem Endpoint_BytesToEPSizeMask_exceeds_largest_class (fuel : Nat) :
    Endpoint_BytesToEPSizeMask avrBits (fuel + 13) 257 = some 96 ∧ ordinal avrBits 96 = 6 ∧
    Pipe_BytesToEPSizeMask avrBits (fuel + 13) 257 = some 80 ∧ ordinal avrBits 80 = 5 := by
  refine ⟨?_, rfl, ?_, rfl⟩
  · rw [Endpoint_encode_eq avrBits (fuel + 13) (by omega) 257 6 (by omega) (by norm_num)
      (by intro j hj; interval_cases j <;> norm_num)]
    rfl
  · obtain ⟨c, h1, h2, h3, _⟩ := Pipe_encode avrBits (fuel + 13) (by omega) 257
    have hc : c = 5 := by
      rcases h3 with h | h
      · interval_cases c <;> norm_num at h
      · exact h
    rw [h1, hc]
    rfl

/-- C5: for every 16-bit capacity `b`, `Pipe_BytesToEPSizeMask(b)` returns, with
an ordinal of at most 5, the class of `PIPE_MAX_SIZE = 256`, and of exactly 5
for every `b > 128`. -/
theorem Pipe_BytesToEPSizeMask_clamped (io : IoBits) (hio : io.EPSIZE0 ≤ 5)
    (fuel : Nat) (hf : 6 ≤ fuel) (b : Nat) (hb : b < 65536) :
    8 * 2 ^ 5 = PIPE_MAX_SIZE ∧
    ∃ r, Pipe_BytesToEPSizeMask io fuel b = some r ∧ ordinal io r ≤ 5 ∧
      (128 < b → ordinal io r = 5) := by
  refine ⟨rfl, ?_⟩
  obtain ⟨c, h1, h2, h3, _⟩ := Pipe_encode io fuel hf b
  refine ⟨_, h1, ?_, ?_⟩
  · rw [ordinal_mask io hio c h2]
    exact h2
  · intro h128
    rw [ordinal_mask io hio c h2]
    rcases h3 with h | h
    · interval_cases c <;> norm_num at h <;> omega
    · exact h

/-- Witness of C5: the AVR size field, fuel 6, capacity 65535. -/
theorem Pipe_BytesToEPSizeMask_clamped_witness :
    avrBits.EPSIZE0 ≤ 5 ∧ 6 ≤ 6 ∧ 65535 < 65536 ∧ 8 * 2 ^ 5 = PIPE_MAX_SIZE ∧
    ∃ r, Pipe_BytesToEPSizeMask avrBits 6 65535 = some r ∧ ordinal avrBits r ≤ 5 ∧
      (128 < 65535 → ordinal avrBits r = 5) :=
  ⟨by decide, by decide, by decide,
    Pipe_BytesToEPSizeMask_clamped avrBits (by decide) 6 (by decide) 65535 (by decide)⟩

/-- C6: the encoder agrees with the reading of the ordinal as `8 * 2^ordinal`:
for every size `m` on the ladder 8, 16, 32, 64, 128, 256, and for every maximum
size of the endpoint capability table, the ordinal of
`Endpoint_BytesToEPSizeMask(m)` decodes to `m`; and for every ordinal `c ≤ 5`
encoding `8 * 2^c` gives `c`. -/
theorem Endpoint_BytesToEPSizeMask_readback (io : IoBits) (hio : io.EPSIZE0 ≤ 5)
    (fuel : Nat) (hf : 13 ≤ fuel) :
    (∀ m, m ∈ [8, 16, 32, 64, 128, 256] →
      ∃ r, Endpoint_BytesToEPSizeMask io fuel m = some r ∧ 8 * 2 ^ ordinal io r = m) ∧
    (∀ (b : Build) (n m : Nat), ENDPOINT_MAX_SIZE b n = some m →
      ∃ r, Endpoint_BytesToEPSizeMask io fuel m = some r ∧ 8 * 2 ^ ordinal io r = m) ∧
    (∀ c, c ≤ 5 → (Endpoint_BytesToEPSizeMask io fuel (8 * 2 ^ c)).map (ordinal io) = some c) := by
  have key : ∀ c, c ≤ 5 →
      Endpoint_BytesToEPSizeMask io fuel (8 * 2 ^ c) = some ((c <<< io.EPSIZE0) % 256) := by
    intro c hc
    refine Endpoint_encode_eq io fuel hf (8 * 2 ^ c) c (by omega) (le_refl _) ?_
    intro j hj
    have : 2 ^ j < 2 ^ c := Nat.pow_lt_pow_right (by norm_num) hj
    omega
  have ladder : ∀ c, c ≤ 5 → ∃ r, Endpoint_BytesToEPSizeMask io fuel (8 * 2 ^ c) = some r ∧
      8 * 2 ^ ordinal io r = 8 * 2 ^ c := by
    intro c hc
    exact ⟨_, key c hc, by rw [ordinal_mask io hio c hc]⟩
  have h64 := ladder 3 (by omega)
  have h256 := ladder 5 (by omega)
  norm_num at h64 h256
  refine ⟨?_, ?_, ?_⟩
  · intro m hm
    simp only [List.mem_cons, List.mem_singleton, List.not_mem_nil, or_false] at hm
    rcases hm with rfl | rfl | rfl | rfl | rfl | rfl
    · simpa using ladder 0 (by omega)
    · simpa using ladder 1 (by omega)
    · simpa using ladder 2 (by omega)
    · exact h64
    · simpa using ladder 4 (by omega)
    · exact h256
  · intro b n m h
    unfold ENDPOINT_MAX_SIZE at h
    split at h <;> split at h <;> simp at h <;> subst h <;> first | exact h64 | exact h256
  · intro c hc
    rw [key c hc]
    simp only [Option.map_some']
    rw [ordinal_mask io hio c hc]

/-- Witness of C6: the AVR size field with fuel 13. -/
theorem Endpoint_BytesToEPSizeMask_readback_witness :
    avrBits.EPSIZE0 ≤ 5 ∧ 13 ≤ 13 ∧
    (∃ r, Endpoint_BytesToEPSizeMask avrBits 13 256 = some r ∧ 8 * 2 ^ ordinal avrBits r = 256) ∧
    (Endpoint_BytesToEPSizeMask avrBits 13 (8 * 2 ^ 4)).map (ordinal avrBits) = some 4 :=
  ⟨by decide, by decide,
    (Endpoint_BytesToEPSizeMask_readback avrBits (by decide) 13 (by decide)).1 256 (by decide),
    (Endpoint_BytesToEPSizeMask_readback avrBits (by decide) 13 (by decide)).2.2 4 (by decide)⟩

/-! ## The channel selector: theorems -/

/-- C7: in a build without `CONTROL_ONLY_DEVICE`, for every valid index `i`,
`Endpoint_SelectEndpoint(i)` followed by `Endpoint_GetCurrentEndpoint()`
returns `i`, and for every `i < PIPE_TOTAL_PIPES`, `Pipe_SelectPipe(i)`
followed by `Pipe_GetCurrentPipe()` returns `i`. -/
theorem select_then_current (b : Build) (hb : b.CONTROL_ONLY_DEVICE = false) :
    (∀ (i : Nat) (s : DeviceRegs), i < ENDPOINT_TOTAL_ENDPOINTS b →
      Endpoint_GetCurrentEndpoint b (Endpoint_SelectEndpoint b i s) = i) ∧
    (∀ (i : Nat) (h : HostRegs), i < PIPE_TOTAL_PIPES →
      Pipe_GetCurrentPipe (Pipe_SelectPipe i h) = i) := by
  constructor
  · intro i s hi
    have h8 : i < 8 := by
      unfold ENDPOINT_TOTAL_ENDPOINTS at hi
      rw [hb] at hi
      cases hs : b.USB_SERIES_4_6_7 <;> rw [hs] at hi <;> simp at hi <;> omega
    simp only [Endpoint_GetCurrentEndpoint, Endpoint_SelectEndpoint, hb, ENDPOINT_EPNUM_MASK]
    exact mask_low_three i h8
  · intro i h hi
    have h8 : i < 8 := by
      unfold PIPE_TOTAL_PIPES at hi
      omega
    simp only [Pipe_GetCurrentPipe, Pipe_SelectPipe, PIPE_PIPENUM_MASK]
    exact mask_low_three i h8

/-- Witness of C7: a series 4/6/7 build with all endpoints, index 6. -/
theorem select_then_current_witness :
    Endpoint_GetCurrentEndpoint ⟨false, true⟩ (Endpoint_SelectEndpoint ⟨false, true⟩ 6 resetRegs) = 6 ∧
    Pipe_GetCurrentPipe (Pipe_SelectPipe 6 ⟨0⟩) = 6 :=
  ⟨(select_then_current ⟨false, true⟩ rfl).1 6 resetRegs (by decide),
    (select_then_current ⟨false, true⟩ rfl).2 6 ⟨0⟩ (by decide)⟩

/-- C8: in a control-only build, `Endpoint_SelectEndpoint(i)` leaves every
register unchanged for every `i`, and `Endpoint_GetCurrentEndpoint()` returns
0, which is `ENDPOINT_CONTROLEP`, in every state, whatever was selected
before. -/
theorem control_only_select_is_noop (b : Build) (hb : b.CONTROL_ONLY_DEVICE = true) :
    (∀ (i : Nat) (s : DeviceRegs), Endpoint_SelectEndpoint b i s = s) ∧
    (∀ s : DeviceRegs, Endpoint_GetCurrentEndpoint b s = 0) ∧
    (∀ (i : Nat) (s : DeviceRegs),
      Endpoint_GetCurrentEndpoint b (Endpoint_SelectEndpoint b i s) = 0) ∧
    ENDPOINT_CONTROLEP = 0 := by
  refine ⟨?_, ?_, ?_, rfl⟩
  · intro i s
    simp [Endpoint_SelectEndpoint, hb]
  · intro s
    simp [Endpoint_GetCurrentEndpoint, hb, ENDPOINT_CONTROLEP]
  · intro i s
    simp [Endpoint_GetCurrentEndpoint, hb, ENDPOINT_CONTROLEP]

/-- Witness of C8: a control-only build, selecting 3 from a state whose
`UENUM` holds 5. -/
theorem control_only_select_is_noop_witness :
    Endpoint_SelectEndpoint ⟨true, false⟩ 3 { resetRegs with UENUM := 5 } =
      { resetRegs with UENUM := 5 } ∧
    Endpoint_GetCurrentEndpoint ⟨true, false⟩ { resetRegs with UENUM := 5 } = 0 :=
  ⟨(control_only_select_is_noop ⟨true, false⟩ rfl).1 3 { resetRegs with UENUM := 5 },
    (control_only_select_is_noop ⟨true, false⟩ rfl).2.1 { resetRegs with UENUM := 5 }⟩

/-! ## The configurator: theorems -/

/-- C9: for every valid endpoint number and every type, direction, size and
bank argument, `Endpoint_ConfigureEndpoint` returns (for every size up to
32768), and after it returns, with true or with false,
`Endpoint_GetCurrentEndpoint()` returns `Number`. -/
theorem Endpoint_ConfigureEndpoint_selects (io : IoBits) (b : Build)
    (hwStatus : Nat → Nat → Nat → Nat) (fuel : Nat) (hf : 13 ≤ fuel)
    (Number EPType Direction Size Banks : Nat) (s : DeviceRegs)
    (hN : Number < ENDPOINT_TOTAL_ENDPOINTS b) :
    (Size ≤ 32768 → ∃ r, Endpoint_ConfigureEndpoint io fuel
      (Endpoint_ConfigureEndpoint_Prv io b hwStatus) Number EPType Direction Size Banks s
        = some r) ∧
    (∀ r, Endpoint_ConfigureEndpoint io fuel
      (Endpoint_ConfigureEndpoint_Prv io b hwStatus) Number EPType Direction Size Banks s
        = some r → Endpoint_GetCurrentEndpoint b r.2 = Number) := by
  constructor
  · intro hS
    obtain ⟨c, h1, _⟩ := Endpoint_encode_mid io fuel hf Size hS
    simp only [Endpoint_ConfigureEndpoint, h1, Option.map_some']
    exact ⟨_, rfl⟩
  · intro r hr
    simp only [Endpoint_ConfigureEndpoint] at hr
    cases hm : Endpoint_BytesToEPSizeMask io fuel Size with
    | none => rw [hm] at hr; simp at hr
    | some Mask =>
      rw [hm] at hr
      simp only [Option.map_some', Option.some.injEq] at hr
      subst hr
      cases hb : b.CONTROL_ONLY_DEVICE with
      | true =>
        have h0 : Number = 0 := by
          unfold ENDPOINT_TOTAL_ENDPOINTS at hN
          rw [hb] at hN
          simp at hN
          exact hN
        simp [Endpoint_GetCurrentEndpoint, hb, ENDPOINT_CONTROLEP, h0]
      | false =>
        have h8 : Number < 8 := by
          unfold ENDPOINT_TOTAL_ENDPOINTS at hN
          rw [hb] at hN
          cases hs : b.USB_SERIES_4_6_7 <;> rw [hs] at hN <;> simp at hN <;> omega
        simp only [Endpoint_GetCurrentEndpoint, Endpoint_ConfigureEndpoint_Prv,
          Endpoint_SelectEndpoint, DeviceRegs.setCur, hb, ENDPOINT_EPNUM_MASK]
        exact mask_low_three Number h8

/-- Witness of C9: endpoint 3 of a series 4/6/7 build, configured as a 64 byte
single bank endpoint of type 2, direction IN, from the reset state; once with a
controller that reports `CFGOK` (the call returns true) and once with one that
does not (the call returns false). -/
theorem Endpoint_ConfigureEndpoint_selects_witness :
    13 ≤ 13 ∧ 3 < ENDPOINT_TOTAL_ENDPOINTS ⟨false, true⟩ ∧
    (∃ r, Endpoint_ConfigureEndpoint avrBits 13
      (Endpoint_ConfigureEndpoint_Prv avrBits ⟨false, true⟩ (fun _ _ _ => 128)) 3 2 1 64 0
        resetRegs = some r ∧ r.1 = true ∧ Endpoint_GetCurrentEndpoint ⟨false, true⟩ r.2 = 3) ∧
    (∃ r, Endpoint_ConfigureEndpoint avrBits 13
      (Endpoint_ConfigureEndpoint_Prv avrBits ⟨false, true⟩ (fun _ _ _ => 0)) 3 2 1 64 0
        resetRegs = some r ∧ r.1 = false ∧ Endpoint_GetCurrentEndpoint ⟨false, true⟩ r.2 = 3) :=
  ⟨by decide, by decide,
    ⟨_, rfl, rfl,
      (Endpoint_ConfigureEndpoint_selects avrBits ⟨false, true⟩ (fun _ _ _ => 128) 13 (by decide)
        3 2 1 64 0 resetRegs (by decide)).2 _ rfl⟩,
    ⟨_, rfl, rfl,
      (Endpoint_ConfigureEndpoint_selects avrBits ⟨false, true⟩ (fun _ _ _ => 0) 13 (by decide)
        3 2 1 64 0 resetRegs (by decide)).2 _ rfl⟩⟩

/-- C10: for every type in 0..3, direction `ENDPOINT_DIR_OUT` or
`ENDPOINT_DIR_IN`, bank mode `ENDPOINT_BANK_SINGLE` or `ENDPOINT_BANK_DOUBLE`
and size of at most 256, `Endpoint_ConfigureEndpoint` hands
`Endpoint_ConfigureEndpoint_Prv` the bytes `(Type << EPTYPE0) | Direction` and
`(1 << ALLOC) | Banks | Endpoint_BytesToEPSizeMask(Size)`, untruncated; in the
second the allocation bit is set; the type, direction, bank and size fields
read back unchanged under their masks; and the call returns exactly what
`Endpoint_ConfigureEndpoint_Prv` returns. (Register layout: the direction bit
below the type field, the allocation bit below the bank field, the bank field
below the size field, all inside a byte.) -/
theorem Endpoint_ConfigureEndpoint_bytes {σ : Type} (io : IoBits)
    (h1 : io.EPDIR < io.EPTYPE0) (h2 : io.EPTYPE0 ≤ 6) (h3 : io.ALLOC < io.EPBK0)
    (h4 : io.EPBK0 + 2 ≤ io.EPSIZE0) (h5 : io.EPSIZE0 ≤ 5)
    (fuel : Nat) (hf : 13 ≤ fuel) (Prv : Nat → Nat → Nat → σ → Bool × σ)
    (Number EPType Direction Size Banks : Nat) (s : σ)
    (hT : EPType ≤ 3)
    (hD : Direction = ENDPOINT_DIR_OUT io ∨ Direction = ENDPOINT_DIR_IN io)
    (hB : Banks = ENDPOINT_BANK_SINGLE io ∨ Banks = ENDPOINT_BANK_DOUBLE io)
    (hS : Size ≤ 256) :
    ∃ Mask cfg0 cfg1,
      Endpoint_BytesToEPSizeMask io fuel Size = some Mask ∧
      cfg0 = ((EPType <<< io.EPTYPE0) ||| Direction) ∧ cfg0 < 256 ∧
      cfg1 = (((1 <<< io.ALLOC) ||| Banks) ||| Mask) ∧ cfg1 < 256 ∧
      Endpoint_ConfigureEndpoint io fuel Prv Number EPType Direction Size Banks s
        = some (Prv Number cfg0 cfg1 s) ∧
      cfg1 &&& (1 <<< io.ALLOC) = 1 <<< io.ALLOC ∧ 0 < 1 <<< io.ALLOC ∧
      (cfg0 &&& (3 <<< io.EPTYPE0)) >>> io.EPTYPE0 = EPType ∧
      cfg0 &&& (1 <<< io.EPDIR) = Direction ∧
      cfg1 &&& (3 <<< io.EPBK0) = Banks ∧
      cfg1 &&& (7 <<< io.EPSIZE0) = Mask := by
  obtain ⟨c, e1, hc, _, _⟩ := Endpoint_encode_small io fuel hf Size hS
  have hdir : ∃ dir, dir < 2 ∧ Direction = dir <<< io.EPDIR := by
    rcases hD with h | h
    · exact ⟨0, by omega, h⟩
    · exact ⟨1, by omega, h⟩
  have hbk : ∃ bk, bk < 2 ∧ Banks = bk <<< io.EPBK0 := by
    rcases hB with h | h
    · exact ⟨0, by omega, h⟩
    · exact ⟨1, by omega, h⟩
  obtain ⟨dir, hdir2, rfl⟩ := hdir
  obtain ⟨bk, hbk2, rfl⟩ := hbk
  obtain ⟨a1, a2, a3⟩ := cfg0_fields io.EPTYPE0 (by omega) io.EPDIR h1 EPType (by omega) dir hdir2
  obtain ⟨b1, b2, b3, b4⟩ :=
    cfg1_fields io.EPSIZE0 (by omega) io.EPBK0 (by omega) io.ALLOC h3 bk hbk2 c (by omega) h4
  refine ⟨_, _, _, e1, rfl, a1, rfl, b1, ?_, b2, ?_, a2, a3, b3, b4⟩
  · simp only [Endpoint_ConfigureEndpoint, e1, Option.map_some']
    rw [Nat.mod_eq_of_lt a1, Nat.mod_eq_of_lt b1]
  · rw [Nat.shiftLeft_eq]
    positivity

/-- Witness of C10: the AVR register layout, a bulk (type 2) IN endpoint of 64
bytes with two banks, over a private routine that records its three arguments;
the bytes handed over are `0x81` and `0x36`. -/
theorem Endpoint_ConfigureEndpoint_bytes_witness :
    avrBits.EPDIR < avrBits.EPTYPE0 ∧ avrBits.EPTYPE0 ≤ 6 ∧ avrBits.ALLOC < avrBits.EPBK0 ∧
    avrBits.EPBK0 + 2 ≤ avrBits.EPSIZE0 ∧ avrBits.EPSIZE0 ≤ 5 ∧
    Endpoint_ConfigureEndpoint avrBits 13
      (fun n c0 c1 (_ : List Nat) => (decide (c1 = 0x36), [n, c0, c1]))
      1 2 (ENDPOINT_DIR_IN avrBits) 64 (ENDPOINT_BANK_DOUBLE avrBits) []
        = some (true, [1, 0x81, 0x36]) ∧
    ∃ Mask cfg0 cfg1,
      Endpoint_BytesToEPSizeMask avrBits 13 64 = some Mask ∧
      cfg0 = ((2 <<< avrBits.EPTYPE0) ||| ENDPOINT_DIR_IN avrBits) ∧ cfg0 < 256 ∧
      cfg1 = (((1 <<< avrBits.ALLOC) ||| ENDPOINT_BANK_DOUBLE avrBits) ||| Mask) ∧ cfg1 < 256 ∧
      Endpoint_ConfigureEndpoint avrBits 13
        (fun n c0 c1 (_ : List Nat) => (decide (c1 = 0x36), [n, c0, c1]))
        1 2 (ENDPOINT_DIR_IN avrBits) 64 (ENDPOINT_BANK_DOUBLE avrBits) []
          = some ((fun n c0 c1 (_ : List Nat) => (decide (c1 = 0x36), [n, c0, c1]))
              1 cfg0 cfg1 []) ∧
      cfg1 &&& (1 <<< avrBits.ALLOC) = 1 <<< avrBits.ALLOC ∧ 0 < 1 <<< avrBits.ALLOC ∧
      (cfg0 &&& (3 <<< avrBits.EPTYPE0)) >>> avrBits.EPTYPE0 = 2 ∧
      cfg0 &&& (1 <<< avrBits.EPDIR) = ENDPOINT_DIR_IN avrBits ∧
      cfg1 &&& (3 <<< avrBits.EPBK0) = ENDPOINT_BANK_DOUBLE avrBits ∧
      cfg1 &&& (7 <<< avrBits.EPSIZE0) = Mask :=
  ⟨by decide, by decide, by decide, by decide, by decide, by decide,
    Endpoint_ConfigureEndpoint_bytes avrBits (by decide) (by decide) (by decide) (by decide)
      (by decide) 13 (by decide)
      (fun n c0 c1 (_ : List Nat) => (decide (c1 = 0x36), [n, c0, c1]))
      1 2 (ENDPOINT_DIR_IN avrBits) 64 (ENDPOINT_BANK_DOUBLE avrBits) []
      (by decide) (Or.inr rfl) (Or.inr rfl) (by decide)⟩

/-! ## The FIFO data primitives: theorems -/

/-- C12: write then read of the same width and endianness is the identity on a
bank that is empty before the write: for every 16-bit `x` the `Word_LE` and
`Word_BE` pairs, and for every 32-bit `x` the `DWord_LE` and `DWord_BE` pairs,
of the `Endpoint_` and of the `Pipe_` primitives, return `x` and leave the bank
empty. -/
theorem write_then_read_identity :
    (∀ x, x < 2 ^ 16 →
      Endpoint_Read_Word_LE (Endpoint_Write_Word_LE x []) = some (x, []) ∧
      Endpoint_Read_Word_BE (Endpoint_Write_Word_BE x []) = some (x, []) ∧
      Pipe_Read_Word_LE (Pipe_Write_Word_LE x []) = some (x, []) ∧
      Pipe_Read_Word_BE (Pipe_Write_Word_BE x []) = some (x, [])) ∧
    (∀ x, x < 2 ^ 32 →
      Endpoint_Read_DWord_LE (Endpoint_Write_DWord_LE x []) = some (x, []) ∧
      Endpoint_Read_DWord_BE (Endpoint_Write_DWord_BE x []) = some (x, []) ∧
      Pipe_Read_DWord_LE (Pipe_Write_DWord_LE x []) = some (x, []) ∧
      Pipe_Read_DWord_BE (Pipe_Write_DWord_BE x []) = some (x, [])) := by
  obtain ⟨p1, p2, p3, p4, p5, p6, p7, p8⟩ := Pipe_primitives_eq
  constructor
  · intro x hx
    rw [p1, p2, p3, p4]
    exact ⟨Word_LE_roundtrip x hx, Word_BE_roundtrip x hx, Word_LE_roundtrip x hx,
      Word_BE_roundtrip x hx⟩
  · intro x hx
    rw [p5, p6, p7, p8]
    exact ⟨DWord_LE_roundtrip x hx, DWord_BE_roundtrip x hx, DWord_LE_roundtrip x hx,
      DWord_BE_roundtrip x hx⟩

/-- Witness of C12: the word `0xBEEF` and the double word `0xDEADBEEF`. -/
theorem write_then_read_identity_witness :
    Endpoint_Read_Word_LE (Endpoint_Write_Word_LE 0xBEEF []) = some (0xBEEF, []) ∧
    Pipe_Read_DWord_BE (Pipe_Write_DWord_BE 0xDEADBEEF []) = some (0xDEADBEEF, []) :=
  ⟨(write_then_read_identity.1 0xBEEF (by norm_num)).1,
    (write_then_read_identity.2 0xDEADBEEF (by norm_num)).2.2.2⟩

/-- C13: the multi-byte writes append exactly as many bytes as their width, in
the documented order: `Endpoint_Write_Word_LE(x)` appends `x mod 256`,
`x div 256`, `Endpoint_Write_Word_BE(x)` the same two in the other order;
`Endpoint_Write_DWord_LE(x)` appends the four bytes `(x >> 8k) mod 256` from
`k = 0` to `k = 3`, `Endpoint_Write_DWord_BE(x)` from `k = 3` to `k = 0`. -/
theorem write_appends_bytes_in_order (fifo : List Nat) :
    (∀ x, x < 2 ^ 16 →
      Endpoint_Write_Word_LE x fifo = fifo ++ [x % 256, x / 256] ∧
      Endpoint_Write_Word_BE x fifo = fifo ++ [x / 256, x % 256]) ∧
    (∀ x, x < 2 ^ 32 →
      Endpoint_Write_DWord_LE x fifo =
        fifo ++ [x % 256, (x >>> 8) % 256, (x >>> 16) % 256, (x >>> 24) % 256] ∧
      Endpoint_Write_DWord_BE x fifo =
        fifo ++ [(x >>> 24) % 256, (x >>> 16) % 256, (x >>> 8) % 256, x % 256]) := by
  constructor
  · intro x hx
    have h : x / 256 % 256 = x / 256 := by omega
    rw [Write_Word_LE_bytes, Write_Word_BE_bytes, h]
    exact ⟨rfl, rfl⟩
  · intro x _
    exact ⟨Write_DWord_LE_bytes x fifo, Write_DWord_BE_bytes x fifo⟩

/-- Witness of C13: `0x1234` and `0x12345678` written to a bank holding one
byte. -/
theorem write_appends_bytes_in_order_witness :
    Endpoint_Write_Word_LE 0x1234 [7] = [7, 0x34, 0x12] ∧
    Endpoint_Write_Word_BE 0x1234 [7] = [7, 0x12, 0x34] ∧
    Endpoint_Write_DWord_LE 0x12345678 [7] = [7, 0x78, 0x56, 0x34, 0x12] ∧
    Endpoint_Write_DWord_BE 0x12345678 [7] = [7, 0x12, 0x34, 0x56, 0x78] :=
  ⟨((write_appends_bytes_in_order [7]).1 0x1234 (by norm_num)).1,
    ((write_appends_bytes_in_order [7]).1 0x1234 (by norm_num)).2,
    ((write_appends_bytes_in_order [7]).2 0x12345678 (by norm_num)).1,
    ((write_appends_bytes_in_order [7]).2 0x12345678 (by norm_num)).2⟩

/-- C14: the multi-byte reads take exactly as many bytes as their width from the
front of the bank and compose them in the documented order (little-endian
target): with `b0, b1, b2, b3` the bytes in the order they leave the bank,
`Endpoint_Read_Word_LE` returns `b0 + 256*b1`, `Endpoint_Read_Word_BE` returns
`256*b0 + b1`, `Endpoint_Read_DWord_LE` returns
`b0 + 2^8*b1 + 2^16*b2 + 2^24*b3` and `Endpoint_Read_DWord_BE` returns
`2^24*b0 + 2^16*b1 + 2^8*b2 + b3`; the rest of the bank is left as it was. -/
theorem read_composes_bytes_in_order (b0 b1 b2 b3 : Nat) (rest : List Nat)
    (h0 : b0 < 256) (h1 : b1 < 256) (h2 : b2 < 256) (h3 : b3 < 256) :
    Endpoint_Read_Word_LE (b0 :: b1 :: rest) = some (b0 + 256 * b1, rest) ∧
    Endpoint_Read_Word_BE (b0 :: b1 :: rest) = some (256 * b0 + b1, rest) ∧
    Endpoint_Read_DWord_LE (b0 :: b1 :: b2 :: b3 :: rest) =
      some (b0 + 2 ^ 8 * b1 + 2 ^ 16 * b2 + 2 ^ 24 * b3, rest) ∧
    Endpoint_Read_DWord_BE (b0 :: b1 :: b2 :: b3 :: rest) =
      some (2 ^ 24 * b0 + 2 ^ 16 * b1 + 2 ^ 8 * b2 + b3, rest) := by
  rw [Read_Word_LE_cons, Read_Word_BE_cons, Read_DWord_LE_cons, Read_DWord_BE_cons,
    Nat.mod_eq_of_lt h0, Nat.mod_eq_of_lt h1, Nat.mod_eq_of_lt h2, Nat.mod_eq_of_lt h3]
  refine ⟨rfl, ?_, rfl, ?_⟩
  · rw [Nat.add_comm]
  · have : b3 + 2 ^ 8 * b2 + 2 ^ 16 * b1 + 2 ^ 24 * b0 =
        2 ^ 24 * b0 + 2 ^ 16 * b1 + 2 ^ 8 * b2 + b3 := by omega
    rw [this]

/-- Witness of C14: a bank holding the bytes `0x12, 0x34, 0x56, 0x78, 0x9A`. -/
theorem read_composes_bytes_in_order_witness :
    Endpoint_Read_Word_LE [0x12, 0x34, 0x9A] = some (0x3412, [0x9A]) ∧
    Endpoint_Read_Word_BE [0x12, 0x34, 0x9A] = some (0x1234, [0x9A]) ∧
    Endpoint_Read_DWord_LE [0x12, 0x34, 0x56, 0x78, 0x9A] = some (0x78563412, [0x9A]) ∧
    Endpoint_Read_DWord_BE [0x12, 0x34, 0x56, 0x78, 0x9A] = some (0x12345678, [0x9A]) :=
  read_composes_bytes_in_order 0x12 0x34 0x56 0x78 [0x9A] (by norm_num) (by norm_num)
    (by norm_num) (by norm_num)

/-- C15: a discard advances the bank exactly as the read of the same width
does: on every bank holding at least 1, 2 or 4 bytes, the bank after
`Endpoint_Discard_Byte`, `Endpoint_Discard_Word` or `Endpoint_Discard_DWord` is
the bank after `Endpoint_Read_Byte`, `Endpoint_Read_Word_LE` or
`Endpoint_Read_DWord_LE`: the bank without its first 1, 2 or 4 bytes. -/
theorem discard_advances_as_read (fifo : List Nat) :
    (1 ≤ fifo.length →
      Endpoint_Discard_Byte fifo = (Endpoint_Read_Byte fifo).map Prod.snd ∧
      Endpoint_Discard_Byte fifo = some (fifo.drop 1)) ∧
    (2 ≤ fifo.length →
      Endpoint_Discard_Word fifo = (Endpoint_Read_Word_LE fifo).map Prod.snd ∧
      Endpoint_Discard_Word fifo = some (fifo.drop 2)) ∧
    (4 ≤ fifo.length →
      Endpoint_Discard_DWord fifo = (Endpoint_Read_DWord_LE fifo).map Prod.snd ∧
      Endpoint_Discard_DWord fifo = some (fifo.drop 4)) := by
  refine ⟨?_, ?_, ?_⟩
  · intro h
    rcases fifo with _ | ⟨b0, rest⟩
    · simp at h
    · exact ⟨rfl, rfl⟩
  · intro h
    rcases fifo with _ | ⟨b0, _ | ⟨b1, rest⟩⟩
    · simp at h
    · simp at h
    · exact ⟨rfl, rfl⟩
  · intro h
    rcases fifo with _ | ⟨b0, _ | ⟨b1, _ | ⟨b2, _ | ⟨b3, rest⟩⟩⟩⟩
    · simp at h
    · simp at h
    · simp at h
    · simp at h
    · exact ⟨rfl, rfl⟩

/-- Witness of C15: a bank holding five bytes. -/
theorem discard_advances_as_read_witness :
    Endpoint_Discard_Byte [1, 2, 3, 4, 5] = some [2, 3, 4, 5] ∧
    Endpoint_Discard_Word [1, 2, 3, 4, 5] = some [3, 4, 5] ∧
    Endpoint_Discard_DWord [1, 2, 3, 4, 5] = some [5] ∧
    Endpoint_Discard_DWord [1, 2, 3, 4, 5] =
      (Endpoint_Read_DWord_LE [1, 2, 3, 4, 5]).map Prod.snd :=
  ⟨((discard_advances_as_read [1, 2, 3, 4, 5]).1 (by decide)).2,
    ((discard_advances_as_read [1, 2, 3, 4, 5]).2.1 (by decide)).2,
    ((discard_advances_as_read [1, 2, 3, 4, 5]).2.2 (by decide)).2,
    ((discard_advances_as_read [1, 2, 3, 4, 5]).2.2 (by decide)).1⟩

/-! ## Stall and enable: theorems -/

/-- C16: from every state, `Endpoint_StallTransaction()` followed by
`Endpoint_IsStalled()` returns true. (`STALLRQ` is a bit of the register
byte.) -/
theorem stall_then_IsStalled (io : IoBits) (h : io.STALLRQ ≤ 7) (s : DeviceRegs) :
    Endpoint_IsStalled io (Endpoint_StallTransaction io s) = true := by
  simp only [Endpoint_IsStalled, Endpoint_StallTransaction, cur_setCur]
  rw [set_same _ _ h]
  simp [one_shiftLeft_ne_zero]

/-- Witness of C16: the AVR bit positions, from the reset state. -/
theorem stall_then_IsStalled_witness :
    avrBits.STALLRQ ≤ 7 ∧
    Endpoint_IsStalled avrBits (Endpoint_StallTransaction avrBits resetRegs) = true :=
  ⟨by decide, stall_then_IsStalled avrBits (by decide) resetRegs⟩

/-- C17: from every state, including one in which the endpoint has just been
stalled by `Endpoint_StallTransaction()`, `Endpoint_ClearStall()` followed by
`Endpoint_IsStalled()` returns false; likewise `Pipe_ClearStall()` followed by
`Pipe_IsStalled()` returns false. (`STALLRQC` is a bit of the register byte, so
that the store of `Endpoint_ClearStall()` carries the command bit.) -/
theorem ClearStall_then_not_stalled (io : IoBits) (h : io.STALLRQC ≤ 7) (s : DeviceRegs)
    (p : PipeRegs) :
    Endpoint_IsStalled io (Endpoint_ClearStall io s) = false ∧
    Endpoint_IsStalled io (Endpoint_ClearStall io (Endpoint_StallTransaction io s)) = false ∧
    Pipe_IsStalled io (Pipe_ClearStall io p) = false := by
  have key : ∀ t : DeviceRegs, Endpoint_IsStalled io (Endpoint_ClearStall io t) = false := by
    intro t
    simp only [Endpoint_IsStalled, Endpoint_ClearStall, cur_setCur, stallClearReaction]
    rw [set_same _ _ h, if_pos (one_shiftLeft_ne_zero _), clear_same]
    simp
  refine ⟨key s, key _, ?_⟩
  simp [Pipe_IsStalled, Pipe_ClearStall, clear_same]

/-- Witness of C17: the AVR bit positions; an endpoint stalled from the reset
state (`UECONX` goes `0x00`, `0x20`, `0x10`) and a pipe whose `RXSTALLI` flag
is set. -/
theorem ClearStall_then_not_stalled_witness :
    avrBits.STALLRQC ≤ 7 ∧
    Endpoint_IsStalled avrBits (Endpoint_StallTransaction avrBits resetRegs) = true ∧
    (Endpoint_ClearStall avrBits (Endpoint_StallTransaction avrBits resetRegs)).cur.UECONX
      = 0x10 ∧
    Endpoint_IsStalled avrBits
      (Endpoint_ClearStall avrBits (Endpoint_StallTransaction avrBits resetRegs)) = false ∧
    Pipe_IsStalled avrBits { resetPipe with UPINTX := 0x02 } = true ∧
    Pipe_IsStalled avrBits (Pipe_ClearStall avrBits { resetPipe with UPINTX := 0x02 }) = false :=
  ⟨by decide, rfl, rfl,
    (ClearStall_then_not_stalled avrBits (by decide) resetRegs
      { resetPipe with UPINTX := 0x02 }).2.1,
    rfl,
    (ClearStall_then_not_stalled avrBits (by decide) resetRegs
      { resetPipe with UPINTX := 0x02 }).2.2⟩

/-- C18: a stall is sticky: once `Endpoint_StallTransaction()` has been called
on the selected endpoint, `Endpoint_IsStalled()` is true after every sequence
of the other operations on that endpoint that does not contain
`Endpoint_ClearStall()`: enable, disable, data toggle reset, direction, packet
completion, FIFO reads, writes and discards. Every such sequence without reads
and discards runs to its end. (`STALLRQ` is a bit of the register byte and is
not the enable bit.) -/
theorem stall_is_sticky (io : IoBits) (b : Build) (h1 : io.STALLRQ ≤ 7)
    (h2 : io.EPEN ≠ io.STALLRQ) :
    (∀ (ops : List EndpointOp) (s t : DeviceRegs),
      EndpointOp.run io b ops (Endpoint_StallTransaction io s) = some t →
        Endpoint_IsStalled io t = true) ∧
    (∀ (ops : List EndpointOp) (s : DeviceRegs), (∀ op, op ∈ ops → op.reads = false) →
      ∃ t, EndpointOp.run io b ops (Endpoint_StallTransaction io s) = some t) := by
  have keep : ∀ (ops : List EndpointOp) (s t : DeviceRegs),
      EndpointOp.run io b ops s = some t → s.cur.UECONX &&& (1 <<< io.STALLRQ) ≠ 0 →
        t.cur.UECONX &&& (1 <<< io.STALLRQ) ≠ 0 := by
    intro ops
    induction ops with
    | nil =>
      intro s t hr h
      simp only [EndpointOp.run, Option.some.injEq] at hr
      subst hr
      exact h
    | cons op ops ih =>
      intro s t hr h
      simp only [EndpointOp.run, Option.bind_eq_some] at hr
      obtain ⟨u, hu, hrest⟩ := hr
      exact ih u t hrest (step_keeps_stall io b h1 h2 op s u hu h)
  have runs : ∀ (ops : List EndpointOp) (s : DeviceRegs), (∀ op, op ∈ ops → op.reads = false) →
      ∃ t, EndpointOp.run io b ops s = some t := by
    intro ops
    induction ops with
    | nil => intro s _; exact ⟨s, rfl⟩
    | cons op ops ih =>
      intro s hall
      obtain ⟨u, hu⟩ := step_runs io b op s (hall op (List.mem_cons_self _ _))
      obtain ⟨t, ht⟩ := ih u (fun o ho => hall o (List.mem_cons_of_mem _ ho))
      exact ⟨t, by simp only [EndpointOp.run, hu, Option.some_bind, ht]⟩
  constructor
  · intro ops s t hr
    have h0 : (Endpoint_StallTransaction io s).cur.UECONX &&& (1 <<< io.STALLRQ) ≠ 0 := by
      simp only [Endpoint_StallTransaction, cur_setCur]
      rw [set_same _ _ h1]
      exact one_shiftLeft_ne_zero _
    have := keep ops _ t hr h0
    simp [Endpoint_IsStalled, this]
  · intro ops s hall
    exact runs ops _ hall

/-- Witness of C18: the AVR bit positions; from the reset state: stall, then
write a word, enable, reset the data toggle, set the direction to IN, send the
packet, read a byte, discard a byte, disable. -/
theorem stall_is_sticky_witness :
    avrBits.STALLRQ ≤ 7 ∧ avrBits.EPEN ≠ avrBits.STALLRQ ∧
    ∃ t, EndpointOp.run avrBits ⟨false, true⟩
      [.Write_Word_LE 0x1234, .EnableEndpoint, .ResetDataToggle, .SetEndpointDirection 1,
        .ClearIN, .Read_Byte, .Discard_Byte, .DisableEndpoint]
      (Endpoint_StallTransaction avrBits resetRegs) = some t ∧
      Endpoint_IsStalled avrBits t = true ∧ Endpoint_IsEnabled avrBits t = false ∧
      t.cur.fifo = [] :=
  ⟨by decide, by decide, _, rfl,
    (stall_is_sticky avrBits ⟨false, true⟩ (by decide) (by decide)).1
      [.Write_Word_LE 0x1234, .EnableEndpoint, .ResetDataToggle, .SetEndpointDirection 1,
        .ClearIN, .Read_Byte, .Discard_Byte, .DisableEndpoint] resetRegs _ rfl,
    rfl, rfl⟩

/-- C19: from every state, `Endpoint_EnableEndpoint()` followed by
`Endpoint_IsEnabled()` returns true and `Endpoint_DisableEndpoint()` followed by
`Endpoint_IsEnabled()` returns false; likewise `Pipe_EnablePipe()` and
`Pipe_DisablePipe()` followed by `Pipe_IsEnabled()`. (`EPEN` and `PEN` are bits
of the register byte.) -/
theorem enable_disable_readback (io : IoBits) (hE : io.EPEN ≤ 7) (hP : io.PEN ≤ 7)
    (s : DeviceRegs) (p : PipeRegs) :
    Endpoint_IsEnabled io (Endpoint_EnableEndpoint io s) = true ∧
    Endpoint_IsEnabled io (Endpoint_DisableEndpoint io s) = false ∧
    Pipe_IsEnabled io (Pipe_EnablePipe io p) = true ∧
    Pipe_IsEnabled io (Pipe_DisablePipe io p) = false := by
  refine ⟨?_, ?_, ?_, ?_⟩
  · simp only [Endpoint_IsEnabled, Endpoint_EnableEndpoint, cur_setCur]
    rw [set_same _ _ hE]
    simp [one_shiftLeft_ne_zero]
  · simp only [Endpoint_IsEnabled, Endpoint_DisableEndpoint, cur_setCur]
    rw [clear_same]
    simp
  · simp [Pipe_IsEnabled, Pipe_EnablePipe, set_same _ _ hP, one_shiftLeft_ne_zero]
  · simp [Pipe_IsEnabled, Pipe_DisablePipe, clear_same]

/-- Witness of C19: the AVR bit positions, from registers that read zero. -/
theorem enable_disable_readback_witness :
    avrBits.EPEN ≤ 7 ∧ avrBits.PEN ≤ 7 ∧
    Endpoint_IsEnabled avrBits (Endpoint_EnableEndpoint avrBits resetRegs) = true ∧
    Endpoint_IsEnabled avrBits (Endpoint_DisableEndpoint avrBits resetRegs) = false ∧
    Pipe_IsEnabled avrBits (Pipe_EnablePipe avrBits resetPipe) = true ∧
    Pipe_IsEnabled avrBits (Pipe_DisablePipe avrBits resetPipe) = false :=
  ⟨by decide, by decide, enable_disable_readback avrBits (by decide) (by decide) resetRegs resetPipe⟩

/-- C20, as stated, fails: from the reset state (every endpoint disabled and not
configured) the single operation `Endpoint_EnableEndpoint()` reaches a state
in which `Endpoint_IsEnabled()` is true and `Endpoint_IsConfigured()` is
false. -/
theorem enabled_not_configured_counterexample :
    Endpoint_IsEnabled avrBits resetRegs = false ∧
    Endpoint_IsConfigured avrBits resetRegs = false ∧
    Endpoint_IsEnabled avrBits (Endpoint_EnableEndpoint avrBits resetRegs) = true ∧
    Endpoint_IsConfigured avrBits (Endpoint_EnableEndpoint avrBits resetRegs) = false := by
  refine ⟨?_, ?_, ?_, ?_⟩ <;> rfl

/-- C20, amended: `Endpoint_EnableEndpoint()` sets the enable bit whatever the
configuration status and does not change `Endpoint_IsConfigured()`; so an
endpoint that is configured when it is enabled is both enabled and configured
afterwards. -/
theorem Enable_keeps_configured (io : IoBits) (hE : io.EPEN ≤ 7) (s : DeviceRegs) :
    Endpoint_IsEnabled io (Endpoint_EnableEndpoint io s) = true ∧
    Endpoint_IsConfigured io (Endpoint_EnableEndpoint io s) = Endpoint_IsConfigured io s ∧
    (Endpoint_IsConfigured io s = true →
      Endpoint_IsEnabled io (Endpoint_EnableEndpoint io s) = true ∧
      Endpoint_IsConfigured io (Endpoint_EnableEndpoint io s) = true) := by
  have h1 : Endpoint_IsEnabled io (Endpoint_EnableEndpoint io s) = true := by
    simp only [Endpoint_IsEnabled, Endpoint_EnableEndpoint, cur_setCur]
    rw [set_same _ _ hE]
    simp [one_shiftLeft_ne_zero]
  have h2 : Endpoint_IsConfigured io (Endpoint_EnableEndpoint io s) =
      Endpoint_IsConfigured io s := by
    simp [Endpoint_IsConfigured, Endpoint_EnableEndpoint]
  exact ⟨h1, h2, fun h => ⟨h1, h2.trans h⟩⟩

/-- Witness of C20, amended: the AVR bit positions; endpoint 0 with `CFGOK`
set in its status register. -/
theorem Enable_keeps_configured_witness :
    avrBits.EPEN ≤ 7 ∧
    Endpoint_IsConfigured avrBits
      (resetRegs.setCur { resetRegs.cur with UESTA0X := 0x80 }) = true ∧
    Endpoint_IsEnabled avrBits (Endpoint_EnableEndpoint avrBits
      (resetRegs.setCur { resetRegs.cur with UESTA0X := 0x80 })) = true ∧
    Endpoint_IsConfigured avrBits (Endpoint_EnableEndpoint avrBits
      (resetRegs.setCur { resetRegs.cur with UESTA0X := 0x80 })) = true :=
  ⟨by decide, rfl,
    (Enable_keeps_configured avrBits (by decide)
      (resetRegs.setCur { resetRegs.cur with UESTA0X := 0x80 })).2.2 rfl⟩

/-- C11 fails on the code: `Endpoint_ConfigureEndpoint` never compares `Size`
with `ENDPOINT_MAX_SIZE(n)`; it relies on the encoder, which has no clamp. On
endpoint 2 of a build with five endpoints (maximum size 64, AVR register
layout), whatever the private routine does and whatever the state:
with `Size = 40000` the call does not return, for any fuel; with `Size = 1025`
it hands the private routine the byte `0x82` for `UECFG1X`, whose size field
(bits 4 to 6) is 0, the field of an 8 byte bank, as in the byte `0x02` that a
request for 8 bytes hands over: the excess of the size never reaches the
controller, so nothing is left that could make the call return false. -/
theorem ConfigureEndpoint_oversize_unchecked :
    ENDPOINT_MAX_SIZE ⟨false, false⟩ 2 = some 64 ∧
    (∀ (fuel : Nat) (Prv : Nat → Nat → Nat → DeviceRegs → Bool × DeviceRegs) (s : DeviceRegs),
      Endpoint_ConfigureEndpoint avrBits fuel Prv 2 2 (ENDPOINT_DIR_IN avrBits) 40000
        (ENDPOINT_BANK_SINGLE avrBits) s = none) ∧
    (∀ (Prv : Nat → Nat → Nat → DeviceRegs → Bool × DeviceRegs) (s : DeviceRegs),
      Endpoint_ConfigureEndpoint avrBits 13 Prv 2 2 (ENDPOINT_DIR_IN avrBits) 1025
        (ENDPOINT_BANK_SINGLE avrBits) s = some (Prv 2 0x81 0x82 s) ∧
      Endpoint_ConfigureEndpoint avrBits 13 Prv 2 2 (ENDPOINT_DIR_IN avrBits) 8
        (ENDPOINT_BANK_SINGLE avrBits) s = some (Prv 2 0x81 0x02 s)) ∧
    (0x82 >>> avrBits.EPSIZE0) &&& 7 = 0 ∧ (0x02 >>> avrBits.EPSIZE0) &&& 7 = 0 ∧
    8 * 2 ^ ((0x82 >>> avrBits.EPSIZE0) &&& 7) ≤ 64 := by
  refine ⟨rfl, ?_, fun Prv s => ⟨rfl, rfl⟩, by decide, by decide, by decide⟩
  intro fuel Prv s
  have h8 : (8 : Nat) = 2 ^ 3 := by norm_num
  have hnone : Endpoint_BytesToEPSizeMask avrBits fuel 40000 = none := by
    simp only [Endpoint_BytesToEPSizeMask]
    rw [h8, Endpoint_loop_diverges 40000 (by omega) fuel 0 3 (by omega)]
    rfl
  simp only [Endpoint_ConfigureEndpoint, hnone, Option.map_none']

/-- The private routine modelled from the specification, with a controller that
honours the capability table (it reports `CFGOK` exactly for a size field that
decodes, as `8 * 2^field`, to at most the 64 bytes of endpoint 2): sizes 65 and
1024 are refused, the call returns false; sizes 1025 and 16384, whose ordinals
8 and 11 do not fit the three bits of the size field, are accepted as banks of
8 and of 64 bytes, the call returns true. -/
theorem ConfigureEndpoint_oversize_table_controller :
    (Endpoint_ConfigureEndpoint avrBits 13
      (Endpoint_ConfigureEndpoint_Prv avrBits ⟨false, false⟩
        (fun _ _ cfg1 => if 64 < 8 * 2 ^ ((cfg1 >>> 4) &&& 7) then 0 else 0x80))
      2 2 (ENDPOINT_DIR_IN avrBits) 65 (ENDPOINT_BANK_SINGLE avrBits) resetRegs).map Prod.fst
        = some false ∧
    (Endpoint_ConfigureEndpoint avrBits 13
      (Endpoint_ConfigureEndpoint_Prv avrBits ⟨false, false⟩
        (fun _ _ cfg1 => if 64 < 8 * 2 ^ ((cfg1 >>> 4) &&& 7) then 0 else 0x80))
      2 2 (ENDPOINT_DIR_IN avrBits) 1024 (ENDPOINT_BANK_SINGLE avrBits) resetRegs).map Prod.fst
        = some false ∧
    (Endpoint_ConfigureEndpoint avrBits 13
      (Endpoint_ConfigureEndpoint_Prv avrBits ⟨false, false⟩
        (fun _ _ cfg1 => if 64 < 8 * 2 ^ ((cfg1 >>> 4) &&& 7) then 0 else 0x80))
      2 2 (ENDPOINT_DIR_IN avrBits) 1025 (ENDPOINT_BANK_SINGLE avrBits) resetRegs).map Prod.fst
        = some true ∧
    (Endpoint_ConfigureEndpoint avrBits 13
      (Endpoint_ConfigureEndpoint_Prv avrBits ⟨false, false⟩
        (fun _ _ cfg1 => if 64 < 8 * 2 ^ ((cfg1 >>> 4) &&& 7) then 0 else 0x80))
      2 2 (ENDPOINT_DIR_IN avrBits) 16384 (ENDPOINT_BANK_SINGLE avrBits) resetRegs).map Prod.fst
        = some true := by
  refine ⟨rfl, rfl, rfl, rfl⟩

/-- Where the encoder is faithful the size does reach the controller: for every
endpoint index `n` of the capability table and every size with
`ENDPOINT_MAX_SIZE(n) < Size ≤ 1024`, `Endpoint_ConfigureEndpoint` (with the
private routine modelled from the specification) returns, hands the controller
a configuration byte whose size field decodes (`8 * 2^field`) to more than
`ENDPOINT_MAX_SIZE(n)`, and returns the `CFGOK` bit that the controller reports
for it: false whenever the controller rejects such a field. The call leaves the
control register of the endpoint as it was, so an endpoint that was disabled
before the call is still disabled afterwards. -/
theorem ConfigureEndpoint_oversize (io : IoBits) (b : Build) (hw : Nat → Nat → Nat → Nat)
    (h3 : io.ALLOC < io.EPBK0) (h4 : io.EPBK0 + 2 ≤ io.EPSIZE0) (h5 : io.EPSIZE0 ≤ 5)
    (fuel : Nat) (hf : 13 ≤ fuel) (n EPType Direction Size Banks m : Nat) (s : DeviceRegs)
    (hB : Banks = ENDPOINT_BANK_SINGLE io ∨ Banks = ENDPOINT_BANK_DOUBLE io)
    (_hm : ENDPOINT_MAX_SIZE b n = some m) (hlo : m < Size) (hhi : Size ≤ 1024) :
    ∃ r, Endpoint_ConfigureEndpoint io fuel (Endpoint_ConfigureEndpoint_Prv io b hw)
        n EPType Direction Size Banks s = some r ∧
      (∃ cfg0 cfg1, m < 8 * 2 ^ ((cfg1 >>> io.EPSIZE0) &&& 7) ∧
        r.2.cur.UESTA0X = hw ((Endpoint_SelectEndpoint b n s).UENUM % 8) cfg0 cfg1 % 256) ∧
      r.1 = Endpoint_IsConfigured io r.2 ∧
      ((∀ cfg0 cfg1, m < 8 * 2 ^ ((cfg1 >>> io.EPSIZE0) &&& 7) →
          (hw ((Endpoint_SelectEndpoint b n s).UENUM % 8) cfg0 cfg1 % 256)
            &&& (1 <<< io.CFGOK) = 0) → r.1 = false) ∧
      Endpoint_IsEnabled io r.2 = Endpoint_IsEnabled io (Endpoint_SelectEndpoint b n s) ∧
      (Endpoint_IsEnabled io (Endpoint_SelectEndpoint b n s) = false →
        Endpoint_IsEnabled io r.2 = false) := by
  obtain ⟨c, e1, hc, hle⟩ := Endpoint_encode_1024 io fuel hf Size hhi
  obtain ⟨bk, hbk, rfl⟩ : ∃ bk, bk < 2 ∧ Banks = bk <<< io.EPBK0 := by
    rcases hB with h | h
    · exact ⟨0, by omega, h⟩
    · exact ⟨1, by omega, h⟩
  have hfield := cfg1_size_field io.EPSIZE0 (by omega) io.EPBK0 (by omega) io.ALLOC h3 bk hbk c
    (by omega) h4
  obtain ⟨p1, p2, p3⟩ := Prv_result io b hw n (((EPType <<< io.EPTYPE0) ||| Direction) % 256)
    ((((1 <<< io.ALLOC) ||| (bk <<< io.EPBK0)) ||| ((c <<< io.EPSIZE0) % 256)) % 256) s
  have hdec : m < 8 * 2 ^ (((((((1 <<< io.ALLOC) ||| (bk <<< io.EPBK0)) |||
      ((c <<< io.EPSIZE0) % 256)) % 256) % 256) >>> io.EPSIZE0) &&& 7) := by
    rw [hfield]
    omega
  have hen : Endpoint_IsEnabled io (Endpoint_ConfigureEndpoint_Prv io b hw n
      (((EPType <<< io.EPTYPE0) ||| Direction) % 256)
      ((((1 <<< io.ALLOC) ||| (bk <<< io.EPBK0)) ||| ((c <<< io.EPSIZE0) % 256)) % 256) s).2 =
      Endpoint_IsEnabled io (Endpoint_SelectEndpoint b n s) := by
    simp only [Endpoint_IsEnabled, p2]
  refine ⟨_, by simp only [Endpoint_ConfigureEndpoint, e1, Option.map_some'],
    ⟨_, _, hdec, p1⟩, p3, ?_, hen, fun h => hen.trans h⟩
  intro hctl
  rw [p3]
  have hz := hctl ((((EPType <<< io.EPTYPE0) ||| Direction) % 256) % 256) _ hdec
  simp only [Endpoint_IsConfigured, p1, hz]
  simp

/-- An instance of `ConfigureEndpoint_oversize`: the AVR register layout,
endpoint 2 (maximum size 64) of a build with five endpoints, size 65, single
bank, from the reset state, with a controller that reports `CFGOK` exactly for
the size fields that decode to at most 64 bytes: the call returns false and the
endpoint is still disabled. -/
theorem ConfigureEndpoint_oversize_witness :
    avrBits.ALLOC < avrBits.EPBK0 ∧ avrBits.EPBK0 + 2 ≤ avrBits.EPSIZE0 ∧
    avrBits.EPSIZE0 ≤ 5 ∧ ENDPOINT_MAX_SIZE ⟨false, false⟩ 2 = some 64 ∧
    ∃ r, Endpoint_ConfigureEndpoint avrBits 13
        (Endpoint_ConfigureEndpoint_Prv avrBits ⟨false, false⟩
          (fun _ _ cfg1 => if 64 < 8 * 2 ^ ((cfg1 >>> 4) &&& 7) then 0 else 0x80))
        2 2 (ENDPOINT_DIR_IN avrBits) 65 (ENDPOINT_BANK_SINGLE avrBits) resetRegs = some r ∧
      r.1 = false ∧ Endpoint_IsEnabled avrBits r.2 = false := by
  refine ⟨by decide, by decide, by decide, rfl, ?_⟩
  obtain ⟨r, hr, _, _, hfalse, _, hdis⟩ :=
    ConfigureEndpoint_oversize avrBits ⟨false, false⟩
      (fun _ _ cfg1 => if 64 < 8 * 2 ^ ((cfg1 >>> 4) &&& 7) then 0 else 0x80)
      (by decide) (by decide) (by decide) 13 (by decide)
      2 2 (ENDPOINT_DIR_IN avrBits) 65 (ENDPOINT_BANK_SINGLE avrBits) 64 resetRegs
      (Or.inl rfl) rfl (by decide) (by decide)
  refine ⟨r, hr, hfalse ?_, hdis rfl⟩
  intro cfg0 cfg1 h
  have h4 : avrBits.EPSIZE0 = 4 := rfl
  rw [h4] at h
  simp [h]

/-! ## Pipe error flags: theorems -/

/-- C21: for every value of `UPERRX` and `UPSTAX`, `Pipe_GetErrorFlags()` returns
a bitmask made only of the seven `PIPE_ERRORFLAG_*` bits: the CRC16, TIMEOUT,
PID, DATAPID and DATATGL bits are those of `UPERRX`, the OVERFLOW and UNDERFLOW
bits are those of `UPSTAX`, and bit 7 is never set. -/
theorem Pipe_GetErrorFlags_bits (p : PipeRegs) :
    Pipe_GetErrorFlags p &&& PIPE_ERRORFLAG_CRC16 = p.UPERRX &&& PIPE_ERRORFLAG_CRC16 ∧
    Pipe_GetErrorFlags p &&& PIPE_ERRORFLAG_TIMEOUT = p.UPERRX &&& PIPE_ERRORFLAG_TIMEOUT ∧
    Pipe_GetErrorFlags p &&& PIPE_ERRORFLAG_PID = p.UPERRX &&& PIPE_ERRORFLAG_PID ∧
    Pipe_GetErrorFlags p &&& PIPE_ERRORFLAG_DATAPID = p.UPERRX &&& PIPE_ERRORFLAG_DATAPID ∧
    Pipe_GetErrorFlags p &&& PIPE_ERRORFLAG_DATATGL = p.UPERRX &&& PIPE_ERRORFLAG_DATATGL ∧
    Pipe_GetErrorFlags p &&& PIPE_ERRORFLAG_OVERFLOW = p.UPSTAX &&& PIPE_ERRORFLAG_OVERFLOW ∧
    Pipe_GetErrorFlags p &&& PIPE_ERRORFLAG_UNDERFLOW = p.UPSTAX &&& PIPE_ERRORFLAG_UNDERFLOW ∧
    Pipe_GetErrorFlags p &&& (1 <<< 7) = 0 ∧
    Pipe_GetErrorFlags p &&&
      (PIPE_ERRORFLAG_OVERFLOW ||| PIPE_ERRORFLAG_UNDERFLOW ||| PIPE_ERRORFLAG_CRC16 |||
        PIPE_ERRORFLAG_TIMEOUT ||| PIPE_ERRORFLAG_PID ||| PIPE_ERRORFLAG_DATAPID |||
        PIPE_ERRORFLAG_DATATGL) = Pipe_GetErrorFlags p := by
  refine ⟨?_, ?_, ?_, ?_, ?_, ?_, ?_, ?_, ?_⟩
  · exact and_bit_eq _ _ 4 (by rw [Pipe_GetErrorFlags_testBit]; simp)
  · exact and_bit_eq _ _ 3 (by rw [Pipe_GetErrorFlags_testBit]; simp)
  · exact and_bit_eq _ _ 2 (by rw [Pipe_GetErrorFlags_testBit]; simp)
  · exact and_bit_eq _ _ 1 (by rw [Pipe_GetErrorFlags_testBit]; simp)
  · exact and_bit_eq _ _ 0 (by rw [Pipe_GetErrorFlags_testBit]; simp)
  · exact and_bit_eq _ _ 6 (by rw [Pipe_GetErrorFlags_testBit]; simp)
  · exact and_bit_eq _ _ 5 (by rw [Pipe_GetErrorFlags_testBit]; simp)
  · exact and_bit_zero _ 7 (by rw [Pipe_GetErrorFlags_testBit]; simp)
  · have h := Nat.and_pow_two_sub_one_eq_mod (Pipe_GetErrorFlags p) 7
    rw [Nat.mod_eq_of_lt (Pipe_GetErrorFlags_lt p)] at h
    exact h

/-- C22: `Pipe_ClearErrorFlags()` followed by `Pipe_GetErrorFlags()` does not
return 0 when an overflow or underflow flag is set: from every state it returns
the OVERFLOW and UNDERFLOW bits of `UPSTAX`, which `Pipe_ClearErrorFlags()`
does not touch; with `UPSTAX = 0x60` and `UPERRX = 0x1F` the flags read `0x7F`
before and `0x60` after. -/
theorem ClearErrorFlags_leaves_overflow :
    Pipe_GetErrorFlags { resetPipe with UPSTAX := 0x60, UPERRX := 0x1F } = 0x7F ∧
    Pipe_GetErrorFlags
      (Pipe_ClearErrorFlags { resetPipe with UPSTAX := 0x60, UPERRX := 0x1F }) = 0x60 ∧
    (∀ p : PipeRegs, (Pipe_ClearErrorFlags p).UPSTAX = p.UPSTAX ∧
      Pipe_GetErrorFlags (Pipe_ClearErrorFlags p) =
        p.UPSTAX &&& (PIPE_ERRORFLAG_OVERFLOW ||| PIPE_ERRORFLAG_UNDERFLOW)) := by
  refine ⟨by decide, by decide, fun p => ⟨rfl, ?_⟩⟩
  apply Nat.eq_of_testBit_eq
  intro i
  rw [Pipe_GetErrorFlags_testBit, Nat.testBit_and, overflow_underflow_testBit]
  simp [Pipe_ClearErrorFlags]

/-- C23: the latched error flags are independent of the master error and stall
flags: `Pipe_ClearErrorFlags()` leaves the results of `Pipe_IsError()` and
`Pipe_IsStalled()` unchanged, and `Pipe_ClearError()` and `Pipe_ClearStall()`
each leave the result of `Pipe_GetErrorFlags()` unchanged, from every state. -/
theorem error_flags_independent (io : IoBits) (p : PipeRegs) :
    Pipe_IsError io (Pipe_ClearErrorFlags p) = Pipe_IsError io p ∧
    Pipe_IsStalled io (Pipe_ClearErrorFlags p) = Pipe_IsStalled io p ∧
    Pipe_GetErrorFlags (Pipe_ClearError io p) = Pipe_GetErrorFlags p ∧
    Pipe_GetErrorFlags (Pipe_ClearStall io p) = Pipe_GetErrorFlags p :=
  ⟨rfl, rfl, rfl, rfl⟩

/-! ## Packet completion, direction and token: theorems -/

/-- C24: in a build without `CONTROL_ONLY_DEVICE`, from every state
`Endpoint_ClearIN()` clears exactly `TXINI` and `FIFOCON` in `UEINTX`, so
`Endpoint_IsINReady()` is false afterwards while `Endpoint_IsOUTReceived()` and
`Endpoint_IsSETUPReceived()` are unchanged; `Endpoint_ClearOUT()` clears exactly
`RXOUTI` and `FIFOCON`, so `Endpoint_IsOUTReceived()` is false afterwards; and
`Endpoint_ClearSETUP()` makes `Endpoint_IsSETUPReceived()` false. (`RXOUTI` and
`RXSTPI` are bits of the register byte, distinct from `TXINI` and
`FIFOCON`.) -/
theorem packet_completion_clears (io : IoBits) (b : Build)
    (hb : b.CONTROL_ONLY_DEVICE = false) (hO : io.RXOUTI ≤ 7) (hS : io.RXSTPI ≤ 7)
    (h1 : io.RXOUTI ≠ io.TXINI) (h2 : io.RXOUTI ≠ io.FIFOCON)
    (h3 : io.RXSTPI ≠ io.TXINI) (h4 : io.RXSTPI ≠ io.FIFOCON) (s : DeviceRegs) :
    (∀ k, k < 8 → (Endpoint_ClearIN io b s).cur.UEINTX.testBit k =
      (s.cur.UEINTX.testBit k && decide (k ≠ io.TXINI ∧ k ≠ io.FIFOCON))) ∧
    Endpoint_IsINReady io (Endpoint_ClearIN io b s) = false ∧
    Endpoint_IsOUTReceived io (Endpoint_ClearIN io b s) = Endpoint_IsOUTReceived io s ∧
    Endpoint_IsSETUPReceived io (Endpoint_ClearIN io b s) = Endpoint_IsSETUPReceived io s ∧
    (∀ k, k < 8 → (Endpoint_ClearOUT io b s).cur.UEINTX.testBit k =
      (s.cur.UEINTX.testBit k && decide (k ≠ io.RXOUTI ∧ k ≠ io.FIFOCON))) ∧
    Endpoint_IsOUTReceived io (Endpoint_ClearOUT io b s) = false ∧
    Endpoint_IsSETUPReceived io (Endpoint_ClearSETUP io s) = false := by
  refine ⟨?_, ?_, ?_, ?_, ?_, ?_, ?_⟩
  · intro k hk
    rw [ClearIN_UEINTX io b hb]
    exact clear_two_bits _ _ _ k hk
  · simp [Endpoint_IsINReady, ClearIN_UEINTX io b hb,
      clear_mask_sub _ _ _ (bit_sub_bits_left io.TXINI io.FIFOCON)]
  · simp [Endpoint_IsOUTReceived, ClearIN_UEINTX io b hb,
      clear_mask_other _ _ _ (bit_lt_256 _ hO) (bit_and_bits _ _ _ h1 h2)]
  · simp [Endpoint_IsSETUPReceived, ClearIN_UEINTX io b hb,
      clear_mask_other _ _ _ (bit_lt_256 _ hS) (bit_and_bits _ _ _ h3 h4)]
  · intro k hk
    rw [ClearOUT_UEINTX io b hb]
    exact clear_two_bits _ _ _ k hk
  · simp [Endpoint_IsOUTReceived, ClearOUT_UEINTX io b hb,
      clear_mask_sub _ _ _ (bit_sub_bits_left io.RXOUTI io.FIFOCON)]
  · simp [Endpoint_IsSETUPReceived, Endpoint_ClearSETUP, clear_same]

/-- Witness of C24: the AVR bit positions, a build with all endpoints, and an
endpoint whose `UEINTX` reads `0x8D` (`FIFOCON`, `RXSTPI`, `RXOUTI`, `TXINI`
set): `Endpoint_ClearIN` leaves `0x0C`, `Endpoint_ClearOUT` leaves `0x09`. -/
theorem packet_completion_clears_witness :
    avrBits.RXOUTI ≤ 7 ∧ avrBits.RXSTPI ≤ 7 ∧ avrBits.RXOUTI ≠ avrBits.TXINI ∧
    avrBits.RXOUTI ≠ avrBits.FIFOCON ∧ avrBits.RXSTPI ≠ avrBits.TXINI ∧
    avrBits.RXSTPI ≠ avrBits.FIFOCON ∧
    (Endpoint_ClearIN avrBits ⟨false, true⟩
      (resetRegs.setCur { resetRegs.cur with UEINTX := 0x8D })).cur.UEINTX = 0x0C ∧
    (Endpoint_ClearOUT avrBits ⟨false, true⟩
      (resetRegs.setCur { resetRegs.cur with UEINTX := 0x8D })).cur.UEINTX = 0x09 ∧
    Endpoint_IsINReady avrBits (Endpoint_ClearIN avrBits ⟨false, true⟩
      (resetRegs.setCur { resetRegs.cur with UEINTX := 0x8D })) = false ∧
    Endpoint_IsOUTReceived avrBits (Endpoint_ClearIN avrBits ⟨false, true⟩
      (resetRegs.setCur { resetRegs.cur with UEINTX := 0x8D })) =
      Endpoint_IsOUTReceived avrBits (resetRegs.setCur { resetRegs.cur with UEINTX := 0x8D }) :=
  ⟨by decide, by decide, by decide, by decide, by decide, by decide, rfl, rfl,
    (packet_completion_clears avrBits ⟨false, true⟩ rfl (by decide) (by decide) (by decide)
      (by decide) (by decide) (by decide)
      (resetRegs.setCur { resetRegs.cur with UEINTX := 0x8D })).2.1,
    (packet_completion_clears avrBits ⟨false, true⟩ rfl (by decide) (by decide) (by decide)
      (by decide) (by decide) (by decide)
      (resetRegs.setCur { resetRegs.cur with UEINTX := 0x8D })).2.2.1⟩

/-- C27: for every `d` in `ENDPOINT_DIR_OUT`, `ENDPOINT_DIR_IN` and every prior
register value, `Endpoint_SetEndpointDirection(d)` followed by
`Endpoint_GetEndpointDirection()` returns `d`, and every other bit of
`UECFG0X` is unchanged; for every `t` in `PIPE_TOKEN_SETUP`, `PIPE_TOKEN_IN`,
`PIPE_TOKEN_OUT`, `Pipe_SetPipeToken(t)` followed by `Pipe_GetPipeToken()`
returns `t` and `Pipe_BoundEndpointNumber()` is unchanged. (Register layout:
the direction bit and the token field inside the byte, the four-bit endpoint
number field below the token field.) -/
theorem set_direction_token_readback (io : IoBits) (hD : io.EPDIR ≤ 7)
    (hP : io.PTOKEN0 ≤ 6) (hE : io.PEPNUM0 + 4 ≤ io.PTOKEN0) (s : DeviceRegs) (p : PipeRegs) :
    (∀ d, d = ENDPOINT_DIR_OUT io ∨ d = ENDPOINT_DIR_IN io →
      Endpoint_GetEndpointDirection io (Endpoint_SetEndpointDirection io d s) = d ∧
      ∀ k, k ≤ 7 → k ≠ io.EPDIR →
        (Endpoint_SetEndpointDirection io d s).cur.UECFG0X &&& (1 <<< k) =
          s.cur.UECFG0X &&& (1 <<< k)) ∧
    (∀ t, t = PIPE_TOKEN_SETUP io ∨ t = PIPE_TOKEN_IN io ∨ t = PIPE_TOKEN_OUT io →
      Pipe_GetPipeToken io (Pipe_SetPipeToken io t p) = t ∧
      Pipe_BoundEndpointNumber io (Pipe_SetPipeToken io t p) =
        Pipe_BoundEndpointNumber io p) := by
  constructor
  · intro d hd
    have hm : ENDPOINT_DIR_IN io < 256 := bit_lt_256 _ hD
    have hdm : d &&& ENDPOINT_DIR_IN io = d := by
      rcases hd with h | h
      · rw [h]
        simp [ENDPOINT_DIR_OUT]
      · rw [h]
        exact Nat.and_self _
    have hd256 : d < 256 := by
      rcases hd with h | h
      · rw [h]
        simp [ENDPOINT_DIR_OUT]
      · rw [h]
        exact hm
    constructor
    · simp only [Endpoint_GetEndpointDirection, Endpoint_SetEndpointDirection, cur_setCur]
      rw [write_field_same _ _ _ hm hdm, Nat.mod_eq_of_lt hd256]
    · intro k hk hne
      simp only [Endpoint_SetEndpointDirection, cur_setCur]
      refine write_field_other _ _ _ _ (bit_lt_256 k hk) (bit_and_bit k _ hne) ?_
      rcases hd with h | h
      · rw [h]
        simp [ENDPOINT_DIR_OUT]
      · rw [h]
        exact bit_and_bit k _ hne
  · intro t ht
    obtain ⟨c, hc, rfl⟩ : ∃ c, c < 3 ∧ t = c <<< io.PTOKEN0 := by
      rcases ht with h | h | h
      · exact ⟨0, by omega, h⟩
      · exact ⟨1, by omega, h⟩
      · exact ⟨2, by omega, h⟩
    obtain ⟨f1, f2, f3, f4⟩ := token_field_facts io.PTOKEN0 (by omega) c hc
    obtain ⟨g1, g2, g3⟩ := f4 io.PEPNUM0 (by omega) hE
    constructor
    · simp only [Pipe_GetPipeToken, Pipe_SetPipeToken]
      rw [write_field_same _ _ _ f1 f2, Nat.mod_eq_of_lt f3]
    · simp only [Pipe_BoundEndpointNumber, Pipe_SetPipeToken, PIPE_EPNUM_MASK]
      rw [shiftRight_and_15, shiftRight_and_15, write_field_other _ _ _ _ g1 g2 g3]

/-- Witness of C27: the AVR bit positions; an OUT bulk endpoint (`UECFG0X` =
`0x80`) set to IN, and a pipe bound to endpoint 3 with token IN (`UPCFG0X` =
`0x93`) set to OUT. -/
theorem set_direction_token_readback_witness :
    avrBits.EPDIR ≤ 7 ∧ avrBits.PTOKEN0 ≤ 6 ∧ avrBits.PEPNUM0 + 4 ≤ avrBits.PTOKEN0 ∧
    Endpoint_GetEndpointDirection avrBits (Endpoint_SetEndpointDirection avrBits
      (ENDPOINT_DIR_IN avrBits) (resetRegs.setCur { resetRegs.cur with UECFG0X := 0x80 }))
      = ENDPOINT_DIR_IN avrBits ∧
    (Endpoint_SetEndpointDirection avrBits (ENDPOINT_DIR_IN avrBits)
      (resetRegs.setCur { resetRegs.cur with UECFG0X := 0x80 })).cur.UECFG0X = 0x81 ∧
    Pipe_GetPipeToken avrBits (Pipe_SetPipeToken avrBits (PIPE_TOKEN_OUT avrBits)
      { resetPipe with UPCFG0X := 0x93 }) = PIPE_TOKEN_OUT avrBits ∧
    Pipe_BoundEndpointNumber avrBits (Pipe_SetPipeToken avrBits (PIPE_TOKEN_OUT avrBits)
      { resetPipe with UPCFG0X := 0x93 }) = 3 :=
  ⟨by decide, by decide, by decide,
    ((set_direction_token_readback avrBits (by decide) (by decide) (by decide)
      (resetRegs.setCur { resetRegs.cur with UECFG0X := 0x80 }) resetPipe).1
        (ENDPOINT_DIR_IN avrBits) (Or.inr rfl)).1,
    rfl,
    ((set_direction_token_readback avrBits (by decide) (by decide) (by decide) resetRegs
      { resetPipe with UPCFG0X := 0x93 }).2 (PIPE_TOKEN_OUT avrBits) (Or.inr (Or.inr rfl))).1,
    rfl⟩

/-! ## The size encoders and the selector: further theorems -/

/-- C28: the device-mode and the host-mode size encoders agree on every
requested capacity `b ≤ 256`, where both return. -/
theorem encoders_agree (io : IoBits) (fuel : Nat) (hf : 13 ≤ fuel) (b : Nat) (hb : b ≤ 256) :
    Endpoint_BytesToEPSizeMask io fuel b = Pipe_BytesToEPSizeMask io fuel b ∧
    ∃ r, Pipe_BytesToEPSizeMask io fuel b = some r := by
  obtain ⟨c, h1, h2, h3, h4⟩ := Pipe_encode io fuel (by omega) b
  have hle : b ≤ 8 * 2 ^ c := by
    rcases h3 with h | h
    · exact h
    · rw [h]
      norm_num
      exact hb
  rw [h1, Endpoint_encode_eq io fuel hf b c (by omega) hle h4]
  exact ⟨rfl, _, rfl⟩

/-- Witness of C28: the AVR size field, fuel 13, capacity 200. -/
theorem encoders_agree_witness :
    13 ≤ 13 ∧ 200 ≤ 256 ∧
    Endpoint_BytesToEPSizeMask avrBits 13 200 = Pipe_BytesToEPSizeMask avrBits 13 200 ∧
    ∃ r, Pipe_BytesToEPSizeMask avrBits 13 200 = some r :=
  ⟨by decide, by decide, encoders_agree avrBits 13 (by decide) 200 (by decide)⟩

/-- C29: in a build without `CONTROL_ONLY_DEVICE`, for every 8-bit index `i`,
valid or not, `Endpoint_SelectEndpoint(i)` followed by
`Endpoint_GetCurrentEndpoint()` returns `i mod 8`, so an index of 8 or more
reads back as a different index below 8; `Pipe_SelectPipe` and
`Pipe_GetCurrentPipe` behave the same. -/
theorem select_masks_index (b : Build) (hb : b.CONTROL_ONLY_DEVICE = false) (i : Nat)
    (hi : i < 256) (s : DeviceRegs) (h : HostRegs) :
    Endpoint_GetCurrentEndpoint b (Endpoint_SelectEndpoint b i s) = i % 8 ∧
    Pipe_GetCurrentPipe (Pipe_SelectPipe i h) = i % 8 ∧
    (8 ≤ i → Endpoint_GetCurrentEndpoint b (Endpoint_SelectEndpoint b i s) ≠ i ∧
      Endpoint_GetCurrentEndpoint b (Endpoint_SelectEndpoint b i s) < 8 ∧
      Pipe_GetCurrentPipe (Pipe_SelectPipe i h) ≠ i ∧
      Pipe_GetCurrentPipe (Pipe_SelectPipe i h) < 8) := by
  have e1 : Endpoint_GetCurrentEndpoint b (Endpoint_SelectEndpoint b i s) = i % 8 := by
    simp only [Endpoint_GetCurrentEndpoint, Endpoint_SelectEndpoint, hb, ENDPOINT_EPNUM_MASK]
    exact mask_low_three_mod i
  have e2 : Pipe_GetCurrentPipe (Pipe_SelectPipe i h) = i % 8 := by
    simp only [Pipe_GetCurrentPipe, Pipe_SelectPipe, PIPE_PIPENUM_MASK]
    exact mask_low_three_mod i
  refine ⟨e1, e2, fun h8 => ?_⟩
  rw [e1, e2]
  omega

/-- Witness of C29: index 9 reads back as 1, index 255 as 7. -/
theorem select_masks_index_witness :
    Endpoint_GetCurrentEndpoint ⟨false, true⟩ (Endpoint_SelectEndpoint ⟨false, true⟩ 9 resetRegs)
      = 1 ∧
    Pipe_GetCurrentPipe (Pipe_SelectPipe 255 ⟨0⟩) = 7 :=
  ⟨(select_masks_index ⟨false, true⟩ rfl 9 (by decide) resetRegs ⟨0⟩).1,
    (select_masks_index ⟨false, true⟩ rfl 255 (by decide) resetRegs ⟨0⟩).2.1⟩

/-- C30: the encoded size stays inside the three-bit size field of the
configuration byte: for every requested capacity `b ≤ 1024`,
`Endpoint_BytesToEPSizeMask(b)` has no bit set outside `7 << EPSIZE0`, so in the
byte `(1 << ALLOC) | Banks | Endpoint_BytesToEPSizeMask(b)` the allocation bit
and the bank bits are those of `(1 << ALLOC)` and `Banks`;
`Pipe_BytesToEPSizeMask(b)` has this property for every 16-bit `b`. (Register
layout: the allocation bit below the bank field, the bank field below the size
field, all inside a byte.) -/
theorem mask_within_size_field (io : IoBits) (h3 : io.ALLOC < io.EPBK0)
    (h4 : io.EPBK0 + 2 ≤ io.EPSIZE0) (h5 : io.EPSIZE0 ≤ 5) (fuel : Nat) (hf : 13 ≤ fuel)
    (Banks : Nat) (hB : Banks = ENDPOINT_BANK_SINGLE io ∨ Banks = ENDPOINT_BANK_DOUBLE io) :
    (∀ b, b ≤ 1024 → ∃ Mask, Endpoint_BytesToEPSizeMask io fuel b = some Mask ∧
      Mask &&& (7 <<< io.EPSIZE0) = Mask ∧
      Mask &&& (1 <<< io.ALLOC) = 0 ∧ Mask &&& (3 <<< io.EPBK0) = 0 ∧
      (((1 <<< io.ALLOC) ||| Banks) ||| Mask) &&& (1 <<< io.ALLOC) = 1 <<< io.ALLOC ∧
      (((1 <<< io.ALLOC) ||| Banks) ||| Mask) &&& (3 <<< io.EPBK0) = Banks) ∧
    (∀ b, b < 65536 → ∃ Mask, Pipe_BytesToEPSizeMask io fuel b = some Mask ∧
      Mask &&& (7 <<< io.EPSIZE0) = Mask ∧
      Mask &&& (1 <<< io.ALLOC) = 0 ∧ Mask &&& (3 <<< io.EPBK0) = 0 ∧
      (((1 <<< io.ALLOC) ||| Banks) ||| Mask) &&& (1 <<< io.ALLOC) = 1 <<< io.ALLOC ∧
      (((1 <<< io.ALLOC) ||| Banks) ||| Mask) &&& (3 <<< io.EPBK0) = Banks) := by
  obtain ⟨bk, hbk, rfl⟩ : ∃ bk, bk < 2 ∧ Banks = bk <<< io.EPBK0 := by
    rcases hB with h | h
    · exact ⟨0, by omega, h⟩
    · exact ⟨1, by omega, h⟩
  constructor
  · intro b hb
    obtain ⟨c, e1, hc, _⟩ := Endpoint_encode_1024 io fuel hf b hb
    exact ⟨_, e1, size_field_only io.EPSIZE0 (by omega) io.EPBK0 (by omega) io.ALLOC h3 bk hbk c
      (by omega) h4⟩
  · intro b _
    obtain ⟨c, e1, hc, _⟩ := Pipe_encode io fuel (by omega) b
    exact ⟨_, e1, size_field_only io.EPSIZE0 (by omega) io.EPBK0 (by omega) io.ALLOC h3 bk hbk c
      (by omega) h4⟩

/-- Witness of C30: the AVR register layout, two banks, fuel 13; capacity 1024
for the device-mode encoder (mask `0x70`) and 65535 for the host-mode one
(mask `0x50`). -/
theorem mask_within_size_field_witness :
    avrBits.ALLOC < avrBits.EPBK0 ∧ avrBits.EPBK0 + 2 ≤ avrBits.EPSIZE0 ∧
    avrBits.EPSIZE0 ≤ 5 ∧
    Endpoint_BytesToEPSizeMask avrBits 13 1024 = some 0x70 ∧
    Pipe_BytesToEPSizeMask avrBits 13 65535 = some 0x50 ∧
    (∃ Mask, Endpoint_BytesToEPSizeMask avrBits 13 1024 = some Mask ∧
      Mask &&& (7 <<< avrBits.EPSIZE0) = Mask ∧
      Mask &&& (1 <<< avrBits.ALLOC) = 0 ∧ Mask &&& (3 <<< avrBits.EPBK0) = 0 ∧
      (((1 <<< avrBits.ALLOC) ||| ENDPOINT_BANK_DOUBLE avrBits) ||| Mask)
        &&& (1 <<< avrBits.ALLOC) = 1 <<< avrBits.ALLOC ∧
      (((1 <<< avrBits.ALLOC) ||| ENDPOINT_BANK_DOUBLE avrBits) ||| Mask)
        &&& (3 <<< avrBits.EPBK0) = ENDPOINT_BANK_DOUBLE avrBits) :=
  ⟨by decide, by decide, by decide, by decide, by decide,
    (mask_within_size_field avrBits (by decide) (by decide) (by decide) 13 (by decide)
      (ENDPOINT_BANK_DOUBLE avrBits) (Or.inr rfl)).1 1024 (by decide)⟩

/-! ## The readiness wait: theorems -/

/-- C25: `Endpoint_WaitUntilReady()` (and `Pipe_WaitUntilReady()`) returns the
Timeout code if the ready flag never sets within the configured budget and no
stall, disconnect or suspend is seen (polls `0 .. N` find nothing, the budget
is used up at poll `N` and not before); and if the ready flag is already set at
entry it returns at once, on the first poll, without waiting, and what it
returns is the NoError code, no stall, disconnect or (device mode) suspend
being seen on that poll: these are the conditions that section 4.4 tests before
the ready flag. -/
theorem wait_timeout_and_ready (T : Nat) (env : Nat → Poll) (N fuel : Nat) (hf : N < fuel) :
    ((∀ j, j ≤ N → (env j).stalled = false ∧ (env j).disconnected = false ∧
        (env j).suspended = false ∧ (env j).ready = false) →
      (∀ j, j < N → (env j).elapsedMs < T) → T ≤ (env N).elapsedMs →
      Endpoint_WaitUntilReady T env fuel 0 = some ENDPOINT_READYWAIT_Timeout) ∧
    ((∀ j, j ≤ N → (env j).stalled = false ∧ (env j).disconnected = false ∧
        (env j).ready = false) →
      (∀ j, j < N → (env j).elapsedMs < T) → T ≤ (env N).elapsedMs →
      Pipe_WaitUntilReady T env fuel 0 = some PIPE_READYWAIT_Timeout) ∧
    ((env 0).ready = true →
      (∃ code, Endpoint_WaitUntilReady T env 1 0 = some code ∧
        Endpoint_WaitUntilReady T env fuel 0 = some code) ∧
      (∃ code, Pipe_WaitUntilReady T env 1 0 = some code ∧
        Pipe_WaitUntilReady T env fuel 0 = some code)) ∧
    ((env 0).ready = true → (env 0).stalled = false → (env 0).disconnected = false →
      (env 0).suspended = false →
      Endpoint_WaitUntilReady T env 1 0 = some ENDPOINT_READYWAIT_NoError ∧
      Endpoint_WaitUntilReady T env fuel 0 = some ENDPOINT_READYWAIT_NoError) ∧
    ((env 0).ready = true → (env 0).stalled = false → (env 0).disconnected = false →
      Pipe_WaitUntilReady T env 1 0 = some PIPE_READYWAIT_NoError ∧
      Pipe_WaitUntilReady T env fuel 0 = some PIPE_READYWAIT_NoError) := by
  refine ⟨?_, ?_, ?_, ?_, ?_⟩
  · intro hno hlt hT
    obtain ⟨a1, a2, a3, a4⟩ := hno N (le_refl N)
    rw [Endpoint_wait_at T env N fuel hf (fun j hj => by
      obtain ⟨b1, b2, b3, b4⟩ := hno j (by omega)
      exact ⟨b1, b2, b3, b4, hlt j hj⟩)]
    simp [a1, a2, a3, a4, hT]
  · intro hno hlt hT
    obtain ⟨a1, a2, a4⟩ := hno N (le_refl N)
    rw [Pipe_wait_at T env N fuel hf (fun j hj => by
      obtain ⟨b1, b2, b4⟩ := hno j (by omega)
      exact ⟨b1, b2, b4, hlt j hj⟩)]
    simp [a1, a2, a4, hT]
  · intro r1
    constructor
    · rw [Endpoint_wait_at T env 0 1 (by omega) (fun j hj => absurd hj (by omega)),
        Endpoint_wait_at T env 0 fuel (by omega) (fun j hj => absurd hj (by omega))]
      by_cases c1 : (env 0).stalled = true
      · exact ⟨ENDPOINT_READYWAIT_EndpointStalled, by simp [c1], by simp [c1]⟩
      · by_cases c2 : (env 0).disconnected = true
        · exact ⟨ENDPOINT_READYWAIT_DeviceDisconnected, by simp [c1, c2], by simp [c1, c2]⟩
        · by_cases c3 : (env 0).suspended = true
          · exact ⟨ENDPOINT_READYWAIT_BusSuspended, by simp [c1, c2, c3], by simp [c1, c2, c3]⟩
          · exact ⟨ENDPOINT_READYWAIT_NoError, by simp [r1, c1, c2, c3],
              by simp [r1, c1, c2, c3]⟩
    · rw [Pipe_wait_at T env 0 1 (by omega) (fun j hj => absurd hj (by omega)),
        Pipe_wait_at T env 0 fuel (by omega) (fun j hj => absurd hj (by omega))]
      by_cases c1 : (env 0).stalled = true
      · exact ⟨PIPE_READYWAIT_PipeStalled, by simp [c1], by simp [c1]⟩
      · by_cases c2 : (env 0).disconnected = true
        · exact ⟨PIPE_READYWAIT_DeviceDisconnected, by simp [c1, c2], by simp [c1, c2]⟩
        · exact ⟨PIPE_READYWAIT_NoError, by simp [r1, c1, c2], by simp [r1, c1, c2]⟩
  · intro r1 r2 r3 r4
    constructor
    · rw [Endpoint_wait_at T env 0 1 (by omega) (fun j hj => absurd hj (by omega))]
      simp [r1, r2, r3, r4]
    · rw [Endpoint_wait_at T env 0 fuel (by omega) (fun j hj => absurd hj (by omega))]
      simp [r1, r2, r3, r4]
  · intro r1 r2 r3
    constructor
    · rw [Pipe_wait_at T env 0 1 (by omega) (fun j hj => absurd hj (by omega))]
      simp [r1, r2, r3]
    · rw [Pipe_wait_at T env 0 fuel (by omega) (fun j hj => absurd hj (by omega))]
      simp [r1, r2, r3]

/-- Witness of C25: a budget of 100 ms and a timer that counts 25 ms per poll; a
channel on which nothing ever happens times out at poll 4, a channel that is
ready at entry returns NoError on the first poll. -/
theorem wait_timeout_and_ready_witness :
    4 < 5 ∧
    Endpoint_WaitUntilReady 100 (fun i => ⟨false, false, false, false, 25 * i⟩) 5 0
      = some ENDPOINT_READYWAIT_Timeout ∧
    Pipe_WaitUntilReady 100 (fun i => ⟨false, false, false, false, 25 * i⟩) 5 0
      = some PIPE_READYWAIT_Timeout ∧
    Endpoint_WaitUntilReady 100 (fun i => ⟨false, false, false, true, 25 * i⟩) 1 0
      = some ENDPOINT_READYWAIT_NoError ∧
    Pipe_WaitUntilReady 100 (fun i => ⟨false, false, false, true, 25 * i⟩) 1 0
      = some PIPE_READYWAIT_NoError ∧
    (∃ code, Endpoint_WaitUntilReady 100 (fun i => ⟨false, false, false, true, 25 * i⟩) 1 0
        = some code ∧
      Endpoint_WaitUntilReady 100 (fun i => ⟨false, false, false, true, 25 * i⟩) 1000 0
        = some code) :=
  ⟨by decide,
    (wait_timeout_and_ready 100 (fun i => ⟨false, false, false, false, 25 * i⟩) 4 5
      (by decide)).1 (fun _ _ => ⟨rfl, rfl, rfl, rfl⟩)
      (fun j hj => by show 25 * j < 100; omega) (by decide),
    (wait_timeout_and_ready 100 (fun i => ⟨false, false, false, false, 25 * i⟩) 4 5
      (by decide)).2.1 (fun _ _ => ⟨rfl, rfl, rfl⟩)
      (fun j hj => by show 25 * j < 100; omega) (by decide),
    ((wait_timeout_and_ready 100 (fun i => ⟨false, false, false, true, 25 * i⟩) 0 1
      (by decide)).2.2.2.1 rfl rfl rfl rfl).1,
    ((wait_timeout_and_ready 100 (fun i => ⟨false, false, false, true, 25 * i⟩) 0 1
      (by decide)).2.2.2.2 rfl rfl rfl).1,
    ((wait_timeout_and_ready 100 (fun i => ⟨false, false, false, true, 25 * i⟩) 0 1000
      (by decide)).2.2.1 rfl).1⟩

/-- C26: the wait classifies by priority: the first poll at which anything holds
(polls `0 .. N-1` find nothing) decides the result, and on it
`Endpoint_WaitUntilReady()` tests stall, then disconnect, then bus suspend,
then the ready flag, then the timeout, returning the code of the first that
holds; `Pipe_WaitUntilReady()` does the same without the suspend test. In
particular a stall found on the first poll returns the Stalled code with a
single poll, whatever the ready flag and the timer. -/
theorem wait_classifies_by_priority (T : Nat) (env : Nat → Poll) (N fuel : Nat)
    (hf : N < fuel) :
    ((∀ j, j < N → (env j).quiet T) →
      ((env N).stalled = true →
        Endpoint_WaitUntilReady T env fuel 0 = some ENDPOINT_READYWAIT_EndpointStalled) ∧
      ((env N).stalled = false → (env N).disconnected = true →
        Endpoint_WaitUntilReady T env fuel 0 = some ENDPOINT_READYWAIT_DeviceDisconnected) ∧
      ((env N).stalled = false → (env N).disconnected = false → (env N).suspended = true →
        Endpoint_WaitUntilReady T env fuel 0 = some ENDPOINT_READYWAIT_BusSuspended) ∧
      ((env N).stalled = false → (env N).disconnected = false → (env N).suspended = false →
        (env N).ready = true →
        Endpoint_WaitUntilReady T env fuel 0 = some ENDPOINT_READYWAIT_NoError) ∧
      ((env N).stalled = false → (env N).disconnected = false → (env N).suspended = false →
        (env N).ready = false → T ≤ (env N).elapsedMs →
        Endpoint_WaitUntilReady T env fuel 0 = some ENDPOINT_READYWAIT_Timeout)) ∧
    ((∀ j, j < N → (env j).pipeQuiet T) →
      ((env N).stalled = true →
        Pipe_WaitUntilReady T env fuel 0 = some PIPE_READYWAIT_PipeStalled) ∧
      ((env N).stalled = false → (env N).disconnected = true →
        Pipe_WaitUntilReady T env fuel 0 = some PIPE_READYWAIT_DeviceDisconnected) ∧
      ((env N).stalled = false → (env N).disconnected = false → (env N).ready = true →
        Pipe_WaitUntilReady T env fuel 0 = some PIPE_READYWAIT_NoError) ∧
      ((env N).stalled = false → (env N).disconnected = false → (env N).ready = false →
        T ≤ (env N).elapsedMs →
        Pipe_WaitUntilReady T env fuel 0 = some PIPE_READYWAIT_Timeout)) ∧
    ((env 0).stalled = true →
      Endpoint_WaitUntilReady T env 1 0 = some ENDPOINT_READYWAIT_EndpointStalled ∧
      Pipe_WaitUntilReady T env 1 0 = some PIPE_READYWAIT_PipeStalled) := by
  refine ⟨fun hq => ?_, fun hq => ?_, fun h0 => ?_⟩
  · rw [Endpoint_wait_at T env N fuel hf hq]
    refine ⟨?_, ?_, ?_, ?_, ?_⟩
    · intro a1
      simp [a1]
    · intro a1 a2
      simp [a1, a2]
    · intro a1 a2 a3
      simp [a1, a2, a3]
    · intro a1 a2 a3 a4
      simp [a1, a2, a3, a4]
    · intro a1 a2 a3 a4 a5
      simp [a1, a2, a3, a4, a5]
  · rw [Pipe_wait_at T env N fuel hf hq]
    refine ⟨?_, ?_, ?_, ?_⟩
    · intro a1
      simp [a1]
    · intro a1 a2
      simp [a1, a2]
    · intro a1 a2 a4
      simp [a1, a2, a4]
    · intro a1 a2 a4 a5
      simp [a1, a2, a4, a5]
  · constructor
    · rw [Endpoint_wait_at T env 0 1 (by omega) (fun j hj => absurd hj (by omega))]
      simp [h0]
    · rw [Pipe_wait_at T env 0 1 (by omega) (fun j hj => absurd hj (by omega))]
      simp [h0]

/-- Witness of C26: a budget of 100 ms; two polls find nothing, the third finds
a stall together with the ready flag, a bus suspend and a timer beyond the
budget: the result is the Stalled code. -/
theorem wait_classifies_by_priority_witness :
    2 < 3 ∧
    Endpoint_WaitUntilReady 100
      (fun i => ⟨decide (2 ≤ i), false, decide (2 ≤ i), decide (2 ≤ i), 60 * i⟩) 3 0
        = some ENDPOINT_READYWAIT_EndpointStalled ∧
    Pipe_WaitUntilReady 100
      (fun i => ⟨decide (2 ≤ i), false, decide (2 ≤ i), decide (2 ≤ i), 60 * i⟩) 3 0
        = some PIPE_READYWAIT_PipeStalled :=
  ⟨by decide,
    ((wait_classifies_by_priority 100
      (fun i => ⟨decide (2 ≤ i), false, decide (2 ≤ i), decide (2 ≤ i), 60 * i⟩) 2 3
      (by decide)).1 (fun j hj => by
        interval_cases j <;> exact ⟨by decide, rfl, by decide, by decide, by decide⟩)).1
      (by decide),
    ((wait_classifies_by_priority 100
      (fun i => ⟨decide (2 ≤ i), false, decide (2 ≤ i), decide (2 ≤ i), 60 * i⟩) 2 3
      (by decide)).2.1 (fun j hj => by
        interval_cases j <;> exact ⟨by decide, rfl, by decide, by decide⟩)).1
      (by decide)⟩

end LUFA
